import Mathlib

/-!
LegoOS NTP engine (`kernel/time/ntp.c`)

A shallow embedding of the NTP clock-discipline code of LegoOS and the
properties of its specification.

Conventions of the embedding:

* the file-scope variables of `ntp.c` are the fields of `TimeState`; every
  function takes the state and returns the new one;
* signed and unsigned machine integers are `Int`s, reduced with `wrapS` /
  `wrapU` wherever the C code computes a value of that width;
* `time_status`, `txc->status` and `txc->modes` are only ever used as bit
  sets; they are represented by their 32-bit pattern as a `Nat`;
* `long`, `unsigned long` and `time_t` have `BITS_PER_LONG` bits;
* the headers (`lego/timex.h`, `lego/time.h`, ...) are not part of the
  sources at hand: the constants they define are the fields of `Consts`.
-/

namespace LegoNTP

/-! ## Machine arithmetic -/

/-- Two's-complement reduction of an integer to a signed `w`-bit value. -/
def wrapS (w : Nat) (x : Int) : Int :=
  (x + 2 ^ (w - 1)) % 2 ^ w - 2 ^ (w - 1)

/-- Reduction of an integer to an unsigned `w`-bit value. -/
def wrapU (w : Nat) (x : Int) : Int :=
  x % 2 ^ w

/-- C `x << n` on an `s64`. -/
def shl64 (x : Int) (n : Nat) : Int :=
  wrapS 64 (x * 2 ^ n)

/-- C `~x` on an `int` bit set (32-bit pattern). -/
def int_not (x : Nat) : Nat :=
  x ^^^ 0xFFFFFFFF

/-- C `LLONG_MAX`. -/
def LLONG_MAX : Int := 2 ^ 63 - 1

/-- C `LLONG_MIN`. -/
def LLONG_MIN : Int := -(2 ^ 63)

/-! ## Constants of the absent headers -/

/-- The constants, macros and helpers that `ntp.c` takes from headers which
are not among the sources. They are parameters of the embedding. -/
structure Consts where
  /-- Width of `long`, `unsigned long` and `time_t`. -/
  BITS_PER_LONG : Nat
  HZ : Int
  USER_HZ : Int
  TICK_USEC : Int
  NSEC_PER_USEC : Int
  USEC_PER_SEC : Int
  NTP_SCALE_SHIFT : Nat
  NTP_INTERVAL_FREQ : Int
  SHIFT_PLL : Nat
  SHIFT_FLL : Nat
  MAXTC : Int
  MINSEC : Int
  MAXSEC : Int
  MAXPHASE : Int
  MAXFREQ : Int
  MAXFREQ_SCALED : Int
  NTP_PHASE_LIMIT : Int
  PPM_SCALE : Int
  TIME_MAX : Int
  EPERM : Int
  EINVAL : Int
  STA_PLL : Nat
  STA_FLL : Nat
  STA_INS : Nat
  STA_DEL : Nat
  STA_UNSYNC : Nat
  STA_FREQHOLD : Nat
  STA_CLOCKERR : Nat
  STA_NANO : Nat
  STA_MODE : Nat
  STA_RONLY : Nat
  ADJ_OFFSET : Nat
  ADJ_FREQUENCY : Nat
  ADJ_MAXERROR : Nat
  ADJ_ESTERROR : Nat
  ADJ_STATUS : Nat
  ADJ_TIMECONST : Nat
  ADJ_TAI : Nat
  ADJ_SETOFFSET : Nat
  ADJ_MICRO : Nat
  ADJ_NANO : Nat
  ADJ_TICK : Nat
  ADJ_ADJTIME : Nat
  ADJ_OFFSET_SINGLESHOT : Nat
  ADJ_OFFSET_READONLY : Nat
  /-- The helper `timespec_inject_offset_valid (tv_sec, tv_nsec)`. -/
  timespec_inject_offset_valid : Int → Int → Bool
  /-- The helper `timeval_inject_offset_valid (tv_sec, tv_usec)`. -/
  timeval_inject_offset_valid : Int → Int → Bool

/-- Modelled from the spec: the `TIME_*` codes of the absent `lego/timex.h`,
which the spec gives as `sync_state : enum {OK, INS, DEL, OOP, WAIT}`. -/
inductive SyncState where
  | TIME_OK
  | TIME_INS
  | TIME_DEL
  | TIME_OOP
  | TIME_WAIT
  deriving DecidableEq, Repr

/-- Reduction to a `long`. -/
def wrapLong (K : Consts) (x : Int) : Int :=
  wrapS K.BITS_PER_LONG x

/-- Reduction to an `unsigned long`. -/
def wrapULong (K : Consts) (x : Int) : Int :=
  wrapU K.BITS_PER_LONG x

/-- Largest `long`. -/
def LONG_MAX (K : Consts) : Int :=
  2 ^ (K.BITS_PER_LONG - 1) - 1

/-- The values these constants have in the reference kernel headers, on a
64-bit build with `HZ = 1000`. -/
def refConsts : Consts where
  BITS_PER_LONG := 64
  HZ := 1000
  USER_HZ := 100
  TICK_USEC := 10000
  NSEC_PER_USEC := 1000
  USEC_PER_SEC := 1000000
  NTP_SCALE_SHIFT := 32
  NTP_INTERVAL_FREQ := 1000
  SHIFT_PLL := 2
  SHIFT_FLL := 2
  MAXTC := 10
  MINSEC := 256
  MAXSEC := 2048
  MAXPHASE := 500000000
  MAXFREQ := 500000
  MAXFREQ_SCALED := 500000 * 2 ^ 32
  NTP_PHASE_LIMIT := 16000000
  PPM_SCALE := 65536000
  TIME_MAX := 2 ^ 63 - 1
  EPERM := 1
  EINVAL := 22
  STA_PLL := 0x0001
  STA_FLL := 0x0008
  STA_INS := 0x0010
  STA_DEL := 0x0020
  STA_UNSYNC := 0x0040
  STA_FREQHOLD := 0x0080
  STA_CLOCKERR := 0x1000
  STA_NANO := 0x2000
  STA_MODE := 0x4000
  STA_RONLY := 0xff00
  ADJ_OFFSET := 0x0001
  ADJ_FREQUENCY := 0x0002
  ADJ_MAXERROR := 0x0004
  ADJ_ESTERROR := 0x0008
  ADJ_STATUS := 0x0010
  ADJ_TIMECONST := 0x0020
  ADJ_TAI := 0x0080
  ADJ_SETOFFSET := 0x0100
  ADJ_MICRO := 0x1000
  ADJ_NANO := 0x2000
  ADJ_TICK := 0x4000
  ADJ_ADJTIME := 0x8000
  ADJ_OFFSET_SINGLESHOT := 0x0001
  ADJ_OFFSET_READONLY := 0x2000
  timespec_inject_offset_valid := fun _ nsec => decide (0 ≤ nsec ∧ nsec < 1000000000)
  timeval_inject_offset_valid := fun _ usec => decide (0 ≤ usec ∧ usec < 1000000)

/-! ## Data model -/

/-- The file-scope NTP variables of `ntp.c`. -/
structure TimeState where
  /-- Declared `unsigned long tick_usec`. -/
  tick_usec : Int
  /-- Declared `unsigned long tick_nsec`. -/
  tick_nsec : Int
  /-- Declared `u64 tick_length`. -/
  tick_length : Int
  /-- Declared `u64 tick_length_base`. -/
  tick_length_base : Int
  /-- Declared `int time_state`. -/
  time_state : SyncState
  /-- Declared `int time_status`. -/
  time_status : Nat
  /-- Declared `s64 time_offset`. -/
  time_offset : Int
  /-- Declared `long time_constant`. -/
  time_constant : Int
  /-- Declared `long time_maxerror`. -/
  time_maxerror : Int
  /-- Declared `long time_esterror`. -/
  time_esterror : Int
  /-- Declared `s64 time_freq`. -/
  time_freq : Int
  /-- Declared `time_t time_reftime`. -/
  time_reftime : Int
  /-- Declared `long time_adjust`. -/
  time_adjust : Int
  /-- Declared `s64 ntp_tick_adj`. -/
  ntp_tick_adj : Int
  /-- Declared `time_t ntp_next_leap_sec`. -/
  ntp_next_leap_sec : Int
  deriving DecidableEq, Repr

/-- The fields of `struct timex` that `ntp.c` reads. -/
structure Timex where
  /-- Declared `unsigned int modes`. -/
  modes : Nat
  /-- Declared `long offset`. -/
  offset : Int
  /-- Declared `long freq`. -/
  freq : Int
  /-- Declared `long maxerror`. -/
  maxerror : Int
  /-- Declared `long esterror`. -/
  esterror : Int
  /-- Declared `int status`. -/
  status : Nat
  /-- Declared `long constant`. -/
  constant : Int
  /-- Declared `long tick`. -/
  tick : Int
  /-- Field `time.tv_sec`. -/
  time_tv_sec : Int
  /-- Field `time.tv_usec`. -/
  time_tv_usec : Int
  deriving DecidableEq, Repr

/-- The initial values of the file-scope variables (static initialisers;
variables without one start at zero). -/
def initialState (K : Consts) : TimeState where
  tick_usec := K.TICK_USEC
  tick_nsec := 0
  tick_length := 0
  tick_length_base := 0
  time_state := SyncState.TIME_OK
  time_status := K.STA_UNSYNC
  time_offset := 0
  time_constant := 2
  time_maxerror := K.NTP_PHASE_LIMIT
  time_esterror := K.NTP_PHASE_LIMIT
  time_freq := 0
  time_reftime := 0
  time_adjust := 0
  ntp_tick_adj := 0
  ntp_next_leap_sec := K.TIME_MAX

/-! ## Local macros of `ntp.c` -/

/-- Macro `SECS_PER_DAY`, defined as 86400. -/
def SECS_PER_DAY : Int := 86400

/-- Macro `MAX_TICKADJ`, defined as `500LL` (usecs). -/
def MAX_TICKADJ : Int := 500

/-- Macro `MAX_TICKADJ_SCALED`, defined as
`(((MAX_TICKADJ * NSEC_PER_USEC) << NTP_SCALE_SHIFT) / NTP_INTERVAL_FREQ)` -/
def MAX_TICKADJ_SCALED (K : Consts) : Int :=
  Int.tdiv (shl64 (wrapS 64 (MAX_TICKADJ * K.NSEC_PER_USEC)) K.NTP_SCALE_SHIFT)
    K.NTP_INTERVAL_FREQ

/-! ## Helpers of the absent headers -/

/-- Modelled from the spec: the `clamp(val, lo, hi)` macro of the absent
`lego/kernel.h` ("clamp the raw offset to ±1 second", "clamp the final value
to ±MAXPHASE"): `min(max(val, lo), hi)`. -/
def clamp (val lo hi : Int) : Int :=
  min (max val lo) hi

/-- Modelled from the spec: the `shift_right(x, s)` macro of the absent
`lego/timex.h` ("right-shift by PLL_SHIFT + time_constant"), a right shift of
the magnitude that keeps the sign: `x < 0 ? -(-x >> s) : x >> s` on an `s64`. -/
def shift_right (x : Int) (s : Int) : Int :=
  if x < 0 then wrapS 64 (-(wrapS 64 (-x) >>> s.toNat)) else x >>> s.toNat

/-- Modelled from the spec: the remainder stored by `div_s64_rem(dividend,
divisor, &rem)` of the absent `lego/math64.h` ("secs mod SECS_PER_DAY"): the C
remainder `dividend % divisor`, stored in an `s32`. -/
def div_s64_rem (dividend divisor : Int) : Int :=
  wrapS 32 (Int.tmod dividend divisor)

/-- Modelled from the spec: `div_u64(dividend, divisor)` of the absent
`lego/math64.h` ("second_length / HZ"): unsigned division of a `u64` by a
`u32`. -/
def div_u64 (dividend divisor : Int) : Int :=
  dividend / wrapU 32 divisor

/-- Modelled from the spec: `div_s64(dividend, divisor)` of the absent
`lego/math64.h` ("(offset << SCALE) / NTP_INTERVAL_FREQ"): C signed division
of an `s64` by an `s32`. -/
def div_s64 (dividend divisor : Int) : Int :=
  wrapS 64 (Int.tdiv dividend (wrapS 32 divisor))

/-- Modelled from the spec: `div64_long(dividend, divisor)` of the absent
`lego/math64.h` ("(offset << (SCALE - FLL_SHIFT)) / secs"): C signed division
of an `s64` by a `long`. -/
def div64_long (dividend divisor : Int) : Int :=
  wrapS 64 (Int.tdiv dividend divisor)

/-! ## The functions of `ntp.c` -/

/-- Source `ntp_offset_chunk`: `shift_right(offset, SHIFT_PLL + time_constant)`. -/
def ntp_offset_chunk (K : Consts) (s : TimeState) (offset : Int) : Int :=
  shift_right offset (wrapLong K (K.SHIFT_PLL + s.time_constant))

/-- Source `is_error_status`. -/
def is_error_status (K : Consts) (status : Nat) : Nat :=
  status &&& (K.STA_UNSYNC ||| K.STA_CLOCKERR)

/-- Source `ntp_synced`: 1 if the NTP status is not UNSYNC. -/
def ntp_synced (K : Consts) (s : TimeState) : Bool :=
  s.time_status &&& K.STA_UNSYNC = 0

/-- Source `ntp_update_frequency`: update (tick_length, tick_length_base,
tick_nsec) from (tick_usec, ntp_tick_adj, time_freq). -/
def ntp_update_frequency (K : Consts) (s : TimeState) : TimeState :=
  let second_length : Int :=
    wrapU 64 (wrapU 64 (wrapULong K (s.tick_usec * K.NSEC_PER_USEC * K.USER_HZ))
      * 2 ^ K.NTP_SCALE_SHIFT)
  let second_length := wrapU 64 (second_length + s.ntp_tick_adj)
  let second_length := wrapU 64 (second_length + s.time_freq)
  let tick_nsec := wrapULong K (div_u64 second_length K.HZ >>> K.NTP_SCALE_SHIFT)
  let new_base := div_u64 second_length K.NTP_INTERVAL_FREQ
  { s with
    tick_nsec := tick_nsec
    tick_length := wrapU 64 (s.tick_length + (new_base - s.tick_length_base))
    tick_length_base := new_base }

/-- Source `ntp_update_offset_fll`: returns the new state (only `time_status`
changes) and the FLL frequency contribution. -/
def ntp_update_offset_fll (K : Consts) (s : TimeState) (offset64 secs : Int) :
    TimeState × Int :=
  let s := { s with time_status := s.time_status &&& int_not K.STA_MODE }
  if secs < K.MINSEC then (s, 0)
  else if s.time_status &&& K.STA_FLL = 0 ∧ secs ≤ K.MAXSEC then (s, 0)
  else
    ({ s with time_status := s.time_status ||| K.STA_MODE },
      div64_long (shl64 offset64 (K.NTP_SCALE_SHIFT - K.SHIFT_FLL)) secs)

/-- Source `ntp_update_offset`. The argument `now` is the value read from
`__ktime_get_real_seconds()`, the seconds of the timekeeper, which the
function reads twice while the timekeeping lock is held. -/
def ntp_update_offset (K : Consts) (s : TimeState) (offset now : Int) : TimeState :=
  if s.time_status &&& K.STA_PLL = 0 then s
  else
    let offset :=
      if s.time_status &&& K.STA_NANO = 0 then
        wrapLong K (clamp offset (-K.USEC_PER_SEC) K.USEC_PER_SEC * K.NSEC_PER_USEC)
      else offset
    let offset := clamp offset (-K.MAXPHASE) K.MAXPHASE
    let secs := wrapLong K (now - s.time_reftime)
    let secs := if s.time_status &&& K.STA_FREQHOLD ≠ 0 then 0 else secs
    let s := { s with time_reftime := now }
    let offset64 := offset
    let r := ntp_update_offset_fll K s offset64 secs
    let s := r.1
    let freq_adj := r.2
    let lim := wrapS 32 (2 ^ (K.SHIFT_PLL + 1 + s.time_constant).toNat)
    let secs := if secs > lim then lim else secs
    let freq_adj := wrapS 64 (freq_adj +
      shl64 (wrapS 64 (offset64 * secs))
        (K.NTP_SCALE_SHIFT - 2 * (K.SHIFT_PLL + 2 + s.time_constant)).toNat)
    let freq_adj := min (wrapS 64 (freq_adj + s.time_freq)) K.MAXFREQ_SCALED
    { s with
      time_freq := max freq_adj (-K.MAXFREQ_SCALED)
      time_offset := div_s64 (shl64 offset64 K.NTP_SCALE_SHIFT) K.NTP_INTERVAL_FREQ }

/-- Source `ntp_clear`: clears the NTP state variables. -/
def ntp_clear (K : Consts) (s : TimeState) : TimeState :=
  let s := { s with
    time_adjust := 0
    time_status := s.time_status ||| K.STA_UNSYNC
    time_maxerror := K.NTP_PHASE_LIMIT
    time_esterror := K.NTP_PHASE_LIMIT }
  let s := ntp_update_frequency K s
  { s with
    tick_length := s.tick_length_base
    time_offset := 0
    ntp_next_leap_sec := K.TIME_MAX }

/-- Source `ntp_tick_length`. -/
def ntp_tick_length (s : TimeState) : Int :=
  s.tick_length

/-- Source `second_overflow`: the per-second routine. Returns the new state
and the leap offset. The two `printk` notices are not modelled. -/
def second_overflow (K : Consts) (s : TimeState) (secs : Int) : TimeState × Int :=
  -- leap second processing
  let r : TimeState × Int :=
    match s.time_state with
    | SyncState.TIME_OK =>
      if s.time_status &&& K.STA_INS ≠ 0 then
        let rem := div_s64_rem secs SECS_PER_DAY
        ({ s with
            time_state := SyncState.TIME_INS
            ntp_next_leap_sec := wrapLong K (secs + SECS_PER_DAY - rem) }, 0)
      else if s.time_status &&& K.STA_DEL ≠ 0 then
        let rem := div_s64_rem (wrapLong K (secs + 1)) SECS_PER_DAY
        ({ s with
            time_state := SyncState.TIME_DEL
            ntp_next_leap_sec := wrapLong K (secs + SECS_PER_DAY - rem) }, 0)
      else (s, 0)
    | SyncState.TIME_INS =>
      if s.time_status &&& K.STA_INS = 0 then
        ({ s with ntp_next_leap_sec := K.TIME_MAX, time_state := SyncState.TIME_OK }, 0)
      else if secs = s.ntp_next_leap_sec then
        ({ s with time_state := SyncState.TIME_OOP }, -1)
      else (s, 0)
    | SyncState.TIME_DEL =>
      if s.time_status &&& K.STA_DEL = 0 then
        ({ s with ntp_next_leap_sec := K.TIME_MAX, time_state := SyncState.TIME_OK }, 0)
      else if secs = s.ntp_next_leap_sec then
        ({ s with ntp_next_leap_sec := K.TIME_MAX, time_state := SyncState.TIME_WAIT }, 1)
      else (s, 0)
    | SyncState.TIME_OOP =>
      ({ s with ntp_next_leap_sec := K.TIME_MAX, time_state := SyncState.TIME_WAIT }, 0)
    | SyncState.TIME_WAIT =>
      if s.time_status &&& (K.STA_INS ||| K.STA_DEL) = 0 then
        ({ s with time_state := SyncState.TIME_OK }, 0)
      else (s, 0)
  let s := r.1
  let leap := r.2
  -- bump the maxerror field
  let maxerror := wrapLong K (s.time_maxerror + Int.tdiv K.MAXFREQ K.NSEC_PER_USEC)
  let s :=
    if maxerror > K.NTP_PHASE_LIMIT then
      { s with
        time_maxerror := K.NTP_PHASE_LIMIT
        time_status := s.time_status ||| K.STA_UNSYNC }
    else { s with time_maxerror := maxerror }
  -- compute the phase adjustment for the next second
  let s := { s with tick_length := s.tick_length_base }
  let delta := ntp_offset_chunk K s s.time_offset
  let s := { s with time_offset := wrapS 64 (s.time_offset - delta) }
  let s := { s with tick_length := wrapU 64 (s.tick_length + delta) }
  if s.time_adjust = 0 then (s, leap)
  else if s.time_adjust > MAX_TICKADJ then
    ({ s with
        time_adjust := wrapLong K (s.time_adjust - MAX_TICKADJ)
        tick_length := wrapU 64 (s.tick_length + MAX_TICKADJ_SCALED K) }, leap)
  else if s.time_adjust < -MAX_TICKADJ then
    ({ s with
        time_adjust := wrapLong K (s.time_adjust + MAX_TICKADJ)
        tick_length := wrapU 64 (s.tick_length - MAX_TICKADJ_SCALED K) }, leap)
  else
    ({ s with
        tick_length := wrapU 64 (s.tick_length +
          shl64 (Int.tdiv (wrapLong K (s.time_adjust * K.NSEC_PER_USEC)) K.NTP_INTERVAL_FREQ)
            K.NTP_SCALE_SHIFT)
        time_adjust := 0 }, leap)

/-- Source `process_adj_status`: propagate a new `txc->status` value into the
NTP state. The argument `now` is the value of `__ktime_get_real_seconds()`. -/
def process_adj_status (K : Consts) (s : TimeState) (txc : Timex) (now : Int) : TimeState :=
  let s :=
    if s.time_status &&& K.STA_PLL ≠ 0 ∧ txc.status &&& K.STA_PLL = 0 then
      { s with
        time_state := SyncState.TIME_OK
        time_status := K.STA_UNSYNC
        ntp_next_leap_sec := K.TIME_MAX }
    else s
  let s :=
    if s.time_status &&& K.STA_PLL = 0 ∧ txc.status &&& K.STA_PLL ≠ 0 then
      { s with time_reftime := now }
    else s
  -- only set allowed bits
  let s := { s with time_status := s.time_status &&& K.STA_RONLY }
  { s with time_status := s.time_status ||| (txc.status &&& int_not K.STA_RONLY) }

/-- Source `process_adjtimex_modes`. Returns the new state and the new value
of `*time_tai` (whose old value is `time_tai`). -/
def process_adjtimex_modes (K : Consts) (s : TimeState) (txc : Timex) (now : Int)
    (time_tai : Int) : TimeState × Int :=
  let s := if txc.modes &&& K.ADJ_STATUS ≠ 0 then process_adj_status K s txc now else s
  let s :=
    if txc.modes &&& K.ADJ_NANO ≠ 0 then
      { s with time_status := s.time_status ||| K.STA_NANO }
    else s
  let s :=
    if txc.modes &&& K.ADJ_MICRO ≠ 0 then
      { s with time_status := s.time_status &&& int_not K.STA_NANO }
    else s
  let s :=
    if txc.modes &&& K.ADJ_FREQUENCY ≠ 0 then
      let s := { s with time_freq := wrapS 64 (txc.freq * K.PPM_SCALE) }
      let s := { s with time_freq := min s.time_freq K.MAXFREQ_SCALED }
      { s with time_freq := max s.time_freq (-K.MAXFREQ_SCALED) }
    else s
  let s := if txc.modes &&& K.ADJ_MAXERROR ≠ 0 then { s with time_maxerror := txc.maxerror } else s
  let s := if txc.modes &&& K.ADJ_ESTERROR ≠ 0 then { s with time_esterror := txc.esterror } else s
  let s :=
    if txc.modes &&& K.ADJ_TIMECONST ≠ 0 then
      let s := { s with time_constant := txc.constant }
      let s :=
        if s.time_status &&& K.STA_NANO = 0 then
          { s with time_constant := wrapLong K (s.time_constant + 4) }
        else s
      let s := { s with time_constant := min s.time_constant K.MAXTC }
      { s with time_constant := max s.time_constant 0 }
    else s
  let time_tai :=
    if txc.modes &&& K.ADJ_TAI ≠ 0 ∧ txc.constant > 0 then wrapS 32 txc.constant else time_tai
  let s := if txc.modes &&& K.ADJ_OFFSET ≠ 0 then ntp_update_offset K s txc.offset now else s
  let s := if txc.modes &&& K.ADJ_TICK ≠ 0 then { s with tick_usec := wrapULong K txc.tick } else s
  let s :=
    if txc.modes &&& (K.ADJ_TICK ||| K.ADJ_FREQUENCY ||| K.ADJ_OFFSET) ≠ 0 then
      ntp_update_frequency K s
    else s
  (s, time_tai)

/-- Source `ntp_validate_timex`: ensures the timex is ok for use in
`do_adjtimex`. The function has the file-scope variables in scope, so it is
given the state and returns it next to its result. Each block of the source
yields `some e` where it executes `return e` and `none` where control falls
through to the next block. -/
def ntp_validate_timex (K : Consts) (s : TimeState) (txc : Timex) : TimeState × Int :=
  let modeCheck : Option Int :=
    if txc.modes &&& K.ADJ_ADJTIME ≠ 0 then
      -- singleshot must not be used with any other mode bits
      if txc.modes &&& K.ADJ_OFFSET_SINGLESHOT = 0 then some (-K.EINVAL)
      else if txc.modes &&& K.ADJ_OFFSET_READONLY = 0 then some (-K.EPERM)
      else none
    else
      -- in order to modify anything, you gotta be super-user
      if txc.modes ≠ 0 then some (-K.EPERM)
      -- if the quartz is off by more than 10% then something is very wrong
      else if txc.modes &&& K.ADJ_TICK ≠ 0 ∧
          (txc.tick < Int.tdiv 900000 K.USER_HZ ∨ txc.tick > Int.tdiv 1100000 K.USER_HZ) then
        some (-K.EINVAL)
      else none
  match modeCheck with
  | some e => (s, e)
  | none =>
    let setoffsetCheck : Option Int :=
      if txc.modes &&& K.ADJ_SETOFFSET ≠ 0 then
        if txc.modes &&& K.ADJ_NANO ≠ 0 then
          if K.timespec_inject_offset_valid txc.time_tv_sec txc.time_tv_usec = false then
            some (-K.EINVAL)
          else none
        else
          if K.timeval_inject_offset_valid txc.time_tv_sec txc.time_tv_usec = false then
            some (-K.EINVAL)
          else none
      else none
    match setoffsetCheck with
    | some e => (s, e)
    | none =>
      -- multiplication overflows that can only happen on 64-bit systems
      if txc.modes &&& K.ADJ_FREQUENCY ≠ 0 ∧ K.BITS_PER_LONG = 64 then
        if Int.tdiv LLONG_MIN K.PPM_SCALE > txc.freq then (s, -K.EINVAL)
        else if Int.tdiv LLONG_MAX K.PPM_SCALE < txc.freq then (s, -K.EINVAL)
        else (s, 0)
      else (s, 0)

/-- Source `ntp_init`. -/
def ntp_init (K : Consts) (s : TimeState) : TimeState :=
  ntp_clear K s

/-! ## Runs of the per-second routine -/

/-- The state after `n` consecutive calls of the per-second routine,
`second_overflow(secs)`, `second_overflow(secs + 1)`, ..., with no other
operation in between. -/
def ticks (K : Consts) (s : TimeState) (secs : Int) : Nat → TimeState
  | 0 => s
  | n + 1 => (second_overflow K (ticks K s secs n) (secs + n)).1

/-- The value returned by call number `n + 1` of such a run, the call
`second_overflow(secs + n)`. -/
def leapAt (K : Consts) (s : TimeState) (secs : Int) (n : Nat) : Int :=
  (second_overflow K (ticks K s secs n) (secs + n)).2

/-- The `switch (time_state)` statement of `second_overflow`, on the three
variables it reads and writes: the result is the new `time_state`, the new
`ntp_next_leap_sec` and `leap`. -/
def leap_switch (K : Consts) (st : SyncState) (status : Nat) (next secs : Int) :
    SyncState × Int × Int :=
  match st with
  | SyncState.TIME_OK =>
    if status &&& K.STA_INS ≠ 0 then
      (SyncState.TIME_INS,
        wrapLong K (secs + SECS_PER_DAY - div_s64_rem secs SECS_PER_DAY), 0)
    else if status &&& K.STA_DEL ≠ 0 then
      (SyncState.TIME_DEL,
        wrapLong K (secs + SECS_PER_DAY - div_s64_rem (wrapLong K (secs + 1)) SECS_PER_DAY), 0)
    else (st, next, 0)
  | SyncState.TIME_INS =>
    if status &&& K.STA_INS = 0 then (SyncState.TIME_OK, K.TIME_MAX, 0)
    else if secs = next then (SyncState.TIME_OOP, next, -1)
    else (st, next, 0)
  | SyncState.TIME_DEL =>
    if status &&& K.STA_DEL = 0 then (SyncState.TIME_OK, K.TIME_MAX, 0)
    else if secs = next then (SyncState.TIME_WAIT, K.TIME_MAX, 1)
    else (st, next, 0)
  | SyncState.TIME_OOP => (SyncState.TIME_WAIT, K.TIME_MAX, 0)
  | SyncState.TIME_WAIT =>
    if status &&& (K.STA_INS ||| K.STA_DEL) = 0 then (SyncState.TIME_OK, next, 0)
    else (st, next, 0)

/-- The leap-second block of `second_overflow` (the `switch` statement), on
the whole state: the state after it and `leap`. -/
def leap_block (K : Consts) (s : TimeState) (secs : Int) : TimeState × Int :=
  match s.time_state with
  | SyncState.TIME_OK =>
    if s.time_status &&& K.STA_INS ≠ 0 then
      let rem := div_s64_rem secs SECS_PER_DAY
      ({ s with
          time_state := SyncState.TIME_INS
          ntp_next_leap_sec := wrapLong K (secs + SECS_PER_DAY - rem) }, 0)
    else if s.time_status &&& K.STA_DEL ≠ 0 then
      let rem := div_s64_rem (wrapLong K (secs + 1)) SECS_PER_DAY
      ({ s with
          time_state := SyncState.TIME_DEL
          ntp_next_leap_sec := wrapLong K (secs + SECS_PER_DAY - rem) }, 0)
    else (s, 0)
  | SyncState.TIME_INS =>
    if s.time_status &&& K.STA_INS = 0 then
      ({ s with ntp_next_leap_sec := K.TIME_MAX, time_state := SyncState.TIME_OK }, 0)
    else if secs = s.ntp_next_leap_sec then
      ({ s with time_state := SyncState.TIME_OOP }, -1)
    else (s, 0)
  | SyncState.TIME_DEL =>
    if s.time_status &&& K.STA_DEL = 0 then
      ({ s with ntp_next_leap_sec := K.TIME_MAX, time_state := SyncState.TIME_OK }, 0)
    else if secs = s.ntp_next_leap_sec then
      ({ s with ntp_next_leap_sec := K.TIME_MAX, time_state := SyncState.TIME_WAIT }, 1)
    else (s, 0)
  | SyncState.TIME_OOP =>
    ({ s with ntp_next_leap_sec := K.TIME_MAX, time_state := SyncState.TIME_WAIT }, 0)
  | SyncState.TIME_WAIT =>
    if s.time_status &&& (K.STA_INS ||| K.STA_DEL) = 0 then
      ({ s with time_state := SyncState.TIME_OK }, 0)
    else (s, 0)

/-- The rest of `second_overflow`, from "Bump the maxerror field" to the
`return leap`, on the state `s0` left by the leap-second block. -/
def phase_block (K : Consts) (s0 : TimeState) (leap : Int) : TimeState × Int :=
  let s := s0
  let maxerror := wrapLong K (s.time_maxerror + Int.tdiv K.MAXFREQ K.NSEC_PER_USEC)
  let s :=
    if maxerror > K.NTP_PHASE_LIMIT then
      { s with
        time_maxerror := K.NTP_PHASE_LIMIT
        time_status := s.time_status ||| K.STA_UNSYNC }
    else { s with time_maxerror := maxerror }
  let s := { s with tick_length := s.tick_length_base }
  let delta := ntp_offset_chunk K s s.time_offset
  let s := { s with time_offset := wrapS 64 (s.time_offset - delta) }
  let s := { s with tick_length := wrapU 64 (s.tick_length + delta) }
  if s.time_adjust = 0 then (s, leap)
  else if s.time_adjust > MAX_TICKADJ then
    ({ s with
        time_adjust := wrapLong K (s.time_adjust - MAX_TICKADJ)
        tick_length := wrapU 64 (s.tick_length + MAX_TICKADJ_SCALED K) }, leap)
  else if s.time_adjust < -MAX_TICKADJ then
    ({ s with
        time_adjust := wrapLong K (s.time_adjust + MAX_TICKADJ)
        tick_length := wrapU 64 (s.tick_length - MAX_TICKADJ_SCALED K) }, leap)
  else
    ({ s with
        tick_length := wrapU 64 (s.tick_length +
          shl64 (Int.tdiv (wrapLong K (s.time_adjust * K.NSEC_PER_USEC)) K.NTP_INTERVAL_FREQ)
            K.NTP_SCALE_SHIFT)
        time_adjust := 0 }, leap)

/-! ## The transition table of the specification -/

/-- The transition table of section 4.4 of the specification, written from
its rows as a pure function `(state, status_flags, next_leap_sec, secs) ->
(state, next_leap_sec, leap)`. Seconds are plain integers, `mod` is the
mathematical remainder, "never" is `TIME_MAX`; the rows of a state are tried
in the order of the table, and where no row applies nothing changes and
`leap = 0`. -/
def leapTable (K : Consts) (st : SyncState) (status : Nat) (next secs : Int) :
    SyncState × Int × Int :=
  match st with
  | SyncState.TIME_OK =>
    if status &&& K.STA_INS ≠ 0 then
      (SyncState.TIME_INS, secs + (86400 - secs % 86400), 0)
    else if status &&& K.STA_DEL ≠ 0 then
      (SyncState.TIME_DEL, secs + (86400 - (secs + 1) % 86400), 0)
    else (SyncState.TIME_OK, next, 0)
  | SyncState.TIME_INS =>
    if status &&& K.STA_INS = 0 then (SyncState.TIME_OK, K.TIME_MAX, 0)
    else if secs = next then (SyncState.TIME_OOP, next, -1)
    else (SyncState.TIME_INS, next, 0)
  | SyncState.TIME_DEL =>
    if status &&& K.STA_DEL = 0 then (SyncState.TIME_OK, K.TIME_MAX, 0)
    else if secs = next then (SyncState.TIME_WAIT, K.TIME_MAX, 1)
    else (SyncState.TIME_DEL, next, 0)
  | SyncState.TIME_OOP => (SyncState.TIME_WAIT, K.TIME_MAX, 0)
  | SyncState.TIME_WAIT =>
    if status &&& K.STA_INS = 0 ∧ status &&& K.STA_DEL = 0 then (SyncState.TIME_OK, next, 0)
    else (SyncState.TIME_WAIT, next, 0)

/-! ## Concrete requests and states -/

/-- A request with every field zero. -/
def txcZero : Timex :=
  { modes := 0, offset := 0, freq := 0, maxerror := 0, esterror := 0, status := 0,
    constant := 0, tick := 0, time_tv_sec := 0, time_tv_usec := 0 }

/-- The initial state with the `STA_INS` status bit set as well. -/
def stateIns : TimeState :=
  { initialState refConsts with time_status := 0x0050 }

/-- The initial state with the `STA_DEL` status bit set as well. -/
def stateDel : TimeState :=
  { initialState refConsts with time_status := 0x0060 }

/-! ## Sequences of offset and frequency updates -/

/-- One update of the administrative path: a call of `ntp_update_offset` or a
call of `process_adjtimex_modes`, with its arguments and the clock reading
`now` of the call. -/
inductive Update where
  | update_offset (offset now : Int)
  | adjtimex_modes (txc : Timex) (now : Int)

/-- The state after one update. -/
def applyUpdate (K : Consts) (s : TimeState) : Update → TimeState
  | Update.update_offset offset now => ntp_update_offset K s offset now
  | Update.adjtimex_modes txc now => (process_adjtimex_modes K s txc now 0).1

/-- The state after a sequence of updates, first to last. -/
def applyUpdates (K : Consts) (s : TimeState) (us : List Update) : TimeState :=
  us.foldl (applyUpdate K) s

/-! ## Sequences of calls that touch the leap-second schedule -/

/-- One call of a function that writes `time_state` or `ntp_next_leap_sec`:
`second_overflow(secs)`, `process_adj_status(txc)` (with the clock reading of
the call) or `ntp_clear()`. -/
inductive LeapCall where
  | tick (secs : Int)
  | adj_status (txc : Timex) (now : Int)
  | clear

/-- The state after one such call. -/
def applyLeapCall (K : Consts) (s : TimeState) : LeapCall → TimeState
  | LeapCall.tick secs => (second_overflow K s secs).1
  | LeapCall.adj_status txc now => process_adj_status K s txc now
  | LeapCall.clear => ntp_clear K s

/-- The state after a sequence of such calls, first to last. -/
def applyLeapCalls (K : Consts) (s : TimeState) (cs : List LeapCall) : TimeState :=
  cs.foldl (applyLeapCall K) s

/-! ## The second length of the specification -/

/-- The `second_length` of section 4.2 of the specification,
`((tick_usec * NSEC_PER_USEC * USER_HZ) << SCALE) + const_boot_adjust +
freq_offset`, taken in unsigned 64-bit arithmetic (modulo `2^64`). -/
def second_length (K : Consts) (s : TimeState) : Int :=
  ((s.tick_usec * K.NSEC_PER_USEC * K.USER_HZ) * 2 ^ K.NTP_SCALE_SHIFT +
    s.ntp_tick_adj + s.time_freq) % 2 ^ 64

/-! ## Lemmas on machine arithmetic and bit sets -/

theorem wrapS_eq_self (w : Nat) (x : Int) (hw : 0 < w)
    (h1 : -(2 ^ (w - 1)) ≤ x) (h2 : x < 2 ^ (w - 1)) : wrapS w x = x := by
  unfold wrapS
  have hp : (2 : Int) ^ w = 2 * 2 ^ (w - 1) := by
    obtain ⟨n, rfl⟩ : ∃ n, w = n + 1 := ⟨w - 1, by omega⟩
    simp [pow_succ]
    ring
  rw [hp, Int.emod_eq_of_lt (by omega) (by omega)]
  ring

theorem bits_pos_of_long_max (K : Consts) (h : 0 < LONG_MAX K) : 0 < K.BITS_PER_LONG := by
  rcases Nat.eq_zero_or_pos K.BITS_PER_LONG with h0 | h0
  · unfold LONG_MAX at h
    rw [h0] at h
    simp at h
  · exact h0

theorem wrapLong_eq_self (K : Consts) (x : Int) (hpos : 0 < LONG_MAX K)
    (h0 : -(LONG_MAX K) - 1 ≤ x) (h1 : x ≤ LONG_MAX K) : wrapLong K x = x := by
  have hw := bits_pos_of_long_max K hpos
  unfold LONG_MAX at h0 h1
  exact wrapS_eq_self _ _ hw (by omega) (by omega)

theorem div_s64_rem_day (x : Int) (h0 : 0 ≤ x) :
    div_s64_rem x SECS_PER_DAY = x % 86400 := by
  unfold div_s64_rem SECS_PER_DAY
  rw [Int.tmod_eq_emod h0 (by norm_num)]
  apply wrapS_eq_self 32 _ (by norm_num)
  · have := Int.emod_nonneg x (show (86400 : Int) ≠ 0 by norm_num)
    norm_num
    omega
  · have := Int.emod_lt_of_pos x (show (0 : Int) < 86400 by norm_num)
    norm_num
    omega

theorem land_lor_ne_zero (a b c : Nat) (h : a &&& c ≠ 0) : (a ||| b) &&& c ≠ 0 := by
  obtain ⟨i, hi⟩ := Nat.ne_zero_implies_bit_true h
  intro h0
  have : ((a ||| b) &&& c).testBit i = true := by
    rw [Nat.testBit_and] at hi ⊢
    rw [Nat.testBit_or]
    simp only [Bool.and_eq_true] at hi ⊢
    simp [hi.1, hi.2]
  rw [h0] at this
  simp at this

/-! ## Lemmas on `second_overflow` -/

theorem second_overflow_eq (K : Consts) (s : TimeState) (secs : Int) :
    second_overflow K s secs =
      phase_block K (leap_block K s secs).1 (leap_block K s secs).2 := rfl

theorem leap_block_eq (K : Consts) (s : TimeState) (secs : Int) :
    (leap_block K s secs).1.time_state =
        (leap_switch K s.time_state s.time_status s.ntp_next_leap_sec secs).1 ∧
    (leap_block K s secs).1.ntp_next_leap_sec =
        (leap_switch K s.time_state s.time_status s.ntp_next_leap_sec secs).2.1 ∧
    (leap_block K s secs).2 =
        (leap_switch K s.time_state s.time_status s.ntp_next_leap_sec secs).2.2 ∧
    (leap_block K s secs).1.time_status = s.time_status := by
  unfold leap_block leap_switch
  cases h : s.time_state <;> dsimp only <;> first | (split_ifs <;> simp [h]) | simp [h]

theorem phase_block_frame (K : Consts) (s : TimeState) (leap : Int) :
    (phase_block K s leap).1.time_state = s.time_state ∧
    (phase_block K s leap).1.ntp_next_leap_sec = s.ntp_next_leap_sec ∧
    (phase_block K s leap).2 = leap ∧
    ((phase_block K s leap).1.time_status = s.time_status ∨
      (phase_block K s leap).1.time_status = s.time_status ||| K.STA_UNSYNC) := by
  unfold phase_block
  dsimp only
  split_ifs <;> simp

theorem second_overflow_leap (K : Consts) (s : TimeState) (secs : Int) :
    (second_overflow K s secs).1.time_state =
        (leap_switch K s.time_state s.time_status s.ntp_next_leap_sec secs).1 ∧
    (second_overflow K s secs).1.ntp_next_leap_sec =
        (leap_switch K s.time_state s.time_status s.ntp_next_leap_sec secs).2.1 ∧
    (second_overflow K s secs).2 =
        (leap_switch K s.time_state s.time_status s.ntp_next_leap_sec secs).2.2 := by
  rw [second_overflow_eq]
  obtain ⟨h1, h2, h3, -⟩ := phase_block_frame K (leap_block K s secs).1 (leap_block K s secs).2
  obtain ⟨g1, g2, g3, -⟩ := leap_block_eq K s secs
  exact ⟨h1.trans g1, h2.trans g2, h3.trans g3⟩

theorem second_overflow_status (K : Consts) (s : TimeState) (secs : Int) :
    (second_overflow K s secs).1.time_status = s.time_status ∨
    (second_overflow K s secs).1.time_status = s.time_status ||| K.STA_UNSYNC := by
  rw [second_overflow_eq]
  obtain ⟨-, -, -, h4⟩ := phase_block_frame K (leap_block K s secs).1 (leap_block K s secs).2
  obtain ⟨-, -, -, g4⟩ := leap_block_eq K s secs
  rw [g4] at h4
  exact h4

theorem second_overflow_keeps_bit (K : Consts) (s : TimeState) (secs : Int) (b : Nat)
    (h : s.time_status &&& b ≠ 0) : (second_overflow K s secs).1.time_status &&& b ≠ 0 := by
  rcases second_overflow_status K s secs with h1 | h1
  · rw [h1]
    exact h
  · rw [h1]
    exact land_lor_ne_zero _ _ _ h

theorem land_lor_eq_zero_iff (a b c : Nat) :
    a &&& (b ||| c) = 0 ↔ a &&& b = 0 ∧ a &&& c = 0 := by
  constructor
  · intro h
    constructor
    · by_contra hb
      apply land_lor_ne_zero b c a (by rwa [Nat.and_comm])
      rwa [Nat.and_comm]
    · by_contra hc
      apply land_lor_ne_zero c b a (by rwa [Nat.and_comm])
      rwa [Nat.and_comm, Nat.or_comm]
  · rintro ⟨hb, hc⟩
    rw [Nat.and_or_distrib_left, hb, hc]
    rfl

theorem next_leap_ins (K : Consts) (secs : Int) (h0 : 0 ≤ secs)
    (h1 : secs + (86400 - secs % 86400) ≤ LONG_MAX K) :
    wrapLong K (secs + SECS_PER_DAY - div_s64_rem secs SECS_PER_DAY) =
      secs + (86400 - secs % 86400) := by
  rw [div_s64_rem_day secs h0]
  unfold SECS_PER_DAY
  have hlt := Int.emod_lt_of_pos secs (show (0 : Int) < 86400 by norm_num)
  have e : secs + 86400 - secs % 86400 = secs + (86400 - secs % 86400) := by ring
  rw [e]
  exact wrapLong_eq_self K _ (by omega) (by omega) h1

theorem next_leap_del (K : Consts) (secs : Int) (h0 : 0 ≤ secs)
    (h1 : secs + (86400 - (secs + 1) % 86400) ≤ LONG_MAX K) :
    wrapLong K (secs + SECS_PER_DAY - div_s64_rem (wrapLong K (secs + 1)) SECS_PER_DAY) =
      secs + (86400 - (secs + 1) % 86400) := by
  have hlt := Int.emod_lt_of_pos (secs + 1) (show (0 : Int) < 86400 by norm_num)
  rw [wrapLong_eq_self K (secs + 1) (by omega) (by omega) (by omega)]
  rw [div_s64_rem_day (secs + 1) (by omega)]
  unfold SECS_PER_DAY
  have e : secs + 86400 - (secs + 1) % 86400 = secs + (86400 - (secs + 1) % 86400) := by ring
  rw [e]
  exact wrapLong_eq_self K _ (by omega) (by omega) h1

theorem leap_switch_eq_table (K : Consts) (st : SyncState) (status : Nat) (next secs : Int)
    (h0 : 0 ≤ secs) (h1 : secs + 86400 ≤ LONG_MAX K) :
    leap_switch K st status next secs = leapTable K st status next secs := by
  have hlt := Int.emod_nonneg secs (show (86400 : Int) ≠ 0 by norm_num)
  have hlt1 := Int.emod_nonneg (secs + 1) (show (86400 : Int) ≠ 0 by norm_num)
  have e1 := next_leap_ins K secs h0 (by omega)
  have e2 := next_leap_del K secs h0 (by omega)
  unfold leap_switch leapTable
  cases st
  · simp only [e1, e2]
  · rfl
  · rfl
  · rfl
  · simp only [land_lor_eq_zero_iff]

/-! ## Single ticks of the leap-second machine -/

theorem tick_ok_ins (K : Consts) (s : TimeState) (secs : Int)
    (hst : s.time_state = SyncState.TIME_OK) (hb : s.time_status &&& K.STA_INS ≠ 0) :
    (second_overflow K s secs).1.time_state = SyncState.TIME_INS ∧
    (second_overflow K s secs).1.ntp_next_leap_sec =
      wrapLong K (secs + SECS_PER_DAY - div_s64_rem secs SECS_PER_DAY) ∧
    (second_overflow K s secs).2 = 0 := by
  have h := second_overflow_leap K s secs
  simpa [leap_switch, hst, hb] using h

theorem tick_ok_del (K : Consts) (s : TimeState) (secs : Int)
    (hst : s.time_state = SyncState.TIME_OK) (hi : s.time_status &&& K.STA_INS = 0)
    (hb : s.time_status &&& K.STA_DEL ≠ 0) :
    (second_overflow K s secs).1.time_state = SyncState.TIME_DEL ∧
    (second_overflow K s secs).1.ntp_next_leap_sec =
      wrapLong K (secs + SECS_PER_DAY - div_s64_rem (wrapLong K (secs + 1)) SECS_PER_DAY) ∧
    (second_overflow K s secs).2 = 0 := by
  have h := second_overflow_leap K s secs
  simpa [leap_switch, hst, hb, hi] using h

theorem tick_ins_stay (K : Consts) (s : TimeState) (secs : Int)
    (hst : s.time_state = SyncState.TIME_INS) (hb : s.time_status &&& K.STA_INS ≠ 0)
    (hne : secs ≠ s.ntp_next_leap_sec) :
    (second_overflow K s secs).1.time_state = SyncState.TIME_INS ∧
    (second_overflow K s secs).1.ntp_next_leap_sec = s.ntp_next_leap_sec ∧
    (second_overflow K s secs).2 = 0 := by
  have h := second_overflow_leap K s secs
  simpa [leap_switch, hst, hb, hne] using h

theorem tick_ins_fire (K : Consts) (s : TimeState) (secs : Int)
    (hst : s.time_state = SyncState.TIME_INS) (hb : s.time_status &&& K.STA_INS ≠ 0)
    (heq : secs = s.ntp_next_leap_sec) :
    (second_overflow K s secs).1.time_state = SyncState.TIME_OOP ∧
    (second_overflow K s secs).1.ntp_next_leap_sec = s.ntp_next_leap_sec ∧
    (second_overflow K s secs).2 = -1 := by
  have h := second_overflow_leap K s secs
  simpa [leap_switch, hst, hb, heq] using h

theorem tick_del_stay (K : Consts) (s : TimeState) (secs : Int)
    (hst : s.time_state = SyncState.TIME_DEL) (hb : s.time_status &&& K.STA_DEL ≠ 0)
    (hne : secs ≠ s.ntp_next_leap_sec) :
    (second_overflow K s secs).1.time_state = SyncState.TIME_DEL ∧
    (second_overflow K s secs).1.ntp_next_leap_sec = s.ntp_next_leap_sec ∧
    (second_overflow K s secs).2 = 0 := by
  have h := second_overflow_leap K s secs
  simpa [leap_switch, hst, hb, hne] using h

theorem tick_del_fire (K : Consts) (s : TimeState) (secs : Int)
    (hst : s.time_state = SyncState.TIME_DEL) (hb : s.time_status &&& K.STA_DEL ≠ 0)
    (heq : secs = s.ntp_next_leap_sec) :
    (second_overflow K s secs).1.time_state = SyncState.TIME_WAIT ∧
    (second_overflow K s secs).1.ntp_next_leap_sec = K.TIME_MAX ∧
    (second_overflow K s secs).2 = 1 := by
  have h := second_overflow_leap K s secs
  simpa [leap_switch, hst, hb, heq] using h

theorem tick_oop (K : Consts) (s : TimeState) (secs : Int)
    (hst : s.time_state = SyncState.TIME_OOP) :
    (second_overflow K s secs).1.time_state = SyncState.TIME_WAIT ∧
    (second_overflow K s secs).1.ntp_next_leap_sec = K.TIME_MAX ∧
    (second_overflow K s secs).2 = 0 := by
  have h := second_overflow_leap K s secs
  simpa [leap_switch, hst] using h

theorem tick_wait (K : Consts) (s : TimeState) (secs : Int)
    (hst : s.time_state = SyncState.TIME_WAIT) :
    (second_overflow K s secs).1.time_state =
      (if s.time_status &&& K.STA_INS = 0 ∧ s.time_status &&& K.STA_DEL = 0
        then SyncState.TIME_OK else SyncState.TIME_WAIT) ∧
    (second_overflow K s secs).1.ntp_next_leap_sec = s.ntp_next_leap_sec ∧
    (second_overflow K s secs).2 = 0 := by
  have h := second_overflow_leap K s secs
  simp only [leap_switch, hst, land_lor_eq_zero_iff] at h
  split_ifs at h ⊢ <;> simpa using h

theorem ticks_succ (K : Consts) (s : TimeState) (secs : Int) (n : Nat) :
    ticks K s secs (n + 1) = (second_overflow K (ticks K s secs n) (secs + n)).1 := rfl

theorem ticks_keep_bit (K : Consts) (s : TimeState) (secs : Int) (b : Nat)
    (h : s.time_status &&& b ≠ 0) (n : Nat) : (ticks K s secs n).time_status &&& b ≠ 0 := by
  induction n with
  | zero => exact h
  | succ n ih =>
    rw [ticks_succ]
    exact second_overflow_keeps_bit K _ _ b ih

/-! ## The leap-insert run -/

theorem insert_run_ins (K : Consts) (s : TimeState) (B : Int) (k : Nat)
    (hB : 0 < B) (hdiv : B % 86400 = 0) (hk1 : 1 ≤ k) (hk2 : k ≤ 86400)
    (hmax : B + 1 ≤ LONG_MAX K)
    (hst : s.time_state = SyncState.TIME_OK) (hb : s.time_status &&& K.STA_INS ≠ 0)
    (i : Nat) (hi : i + 1 ≤ k) :
    (ticks K s (B - k) (i + 1)).time_state = SyncState.TIME_INS ∧
    (ticks K s (B - k) (i + 1)).ntp_next_leap_sec = B := by
  induction i with
  | zero =>
    rw [ticks_succ]
    obtain ⟨a1, a2, -⟩ := tick_ok_ins K s (B - k + (0 : Nat)) hst hb
    refine ⟨a1, a2.trans ?_⟩
    have e : B - (k : Int) + ((0 : Nat) : Int) = B - k := by simp
    rw [e, next_leap_ins K (B - k) (by omega) (by omega)]
    omega
  | succ i ih =>
    obtain ⟨b1, b2⟩ := ih (by omega)
    rw [ticks_succ]
    have hbit := ticks_keep_bit K s (B - k) K.STA_INS hb (i + 1)
    obtain ⟨a1, a2, -⟩ := tick_ins_stay K _ (B - k + ((i + 1 : Nat) : Int)) b1 hbit
      (by rw [b2]; push_cast; omega)
    exact ⟨a1, a2.trans b2⟩

theorem insert_run_leap_before (K : Consts) (s : TimeState) (B : Int) (k : Nat)
    (hB : 0 < B) (hdiv : B % 86400 = 0) (hk1 : 1 ≤ k) (hk2 : k ≤ 86400)
    (hmax : B + 1 ≤ LONG_MAX K)
    (hst : s.time_state = SyncState.TIME_OK) (hb : s.time_status &&& K.STA_INS ≠ 0)
    (j : Nat) (hj : j < k) : leapAt K s (B - k) j = 0 := by
  unfold leapAt
  cases j with
  | zero => exact (tick_ok_ins K s _ hst hb).2.2
  | succ i =>
    obtain ⟨b1, b2⟩ := insert_run_ins K s B k hB hdiv hk1 hk2 hmax hst hb i (by omega)
    have hbit := ticks_keep_bit K s (B - k) K.STA_INS hb (i + 1)
    exact (tick_ins_stay K _ (B - k + ((i + 1 : Nat) : Int)) b1 hbit
      (by rw [b2]; push_cast; omega)).2.2

theorem insert_run_oop (K : Consts) (s : TimeState) (B : Int) (k : Nat)
    (hB : 0 < B) (hdiv : B % 86400 = 0) (hk1 : 1 ≤ k) (hk2 : k ≤ 86400)
    (hmax : B + 1 ≤ LONG_MAX K)
    (hst : s.time_state = SyncState.TIME_OK) (hb : s.time_status &&& K.STA_INS ≠ 0) :
    (ticks K s (B - k) (k + 1)).time_state = SyncState.TIME_OOP ∧
    leapAt K s (B - k) k = -1 := by
  obtain ⟨i, rfl⟩ : ∃ i, k = i + 1 := ⟨k - 1, by omega⟩
  obtain ⟨b1, b2⟩ := insert_run_ins K s B (i + 1) hB hdiv hk1 hk2 hmax hst hb i (by omega)
  have hbit := ticks_keep_bit K s (B - ((i + 1 : Nat) : Int)) K.STA_INS hb (i + 1)
  obtain ⟨a1, -, a3⟩ := tick_ins_fire K _ (B - ((i + 1 : Nat) : Int) + ((i + 1 : Nat) : Int))
    b1 hbit (by rw [b2]; omega)
  exact ⟨a1, a3⟩

theorem insert_run_wait (K : Consts) (s : TimeState) (B : Int) (k : Nat)
    (hB : 0 < B) (hdiv : B % 86400 = 0) (hk1 : 1 ≤ k) (hk2 : k ≤ 86400)
    (hmax : B + 1 ≤ LONG_MAX K)
    (hst : s.time_state = SyncState.TIME_OK) (hb : s.time_status &&& K.STA_INS ≠ 0) :
    (ticks K s (B - k) (k + 2)).time_state = SyncState.TIME_WAIT ∧
    (ticks K s (B - k) (k + 2)).ntp_next_leap_sec = K.TIME_MAX ∧
    leapAt K s (B - k) (k + 1) = 0 := by
  obtain ⟨b1, -⟩ := insert_run_oop K s B k hB hdiv hk1 hk2 hmax hst hb
  obtain ⟨a1, a2, a3⟩ := tick_oop K _ (B - k + ((k + 1 : Nat) : Int)) b1
  exact ⟨a1, a2, a3⟩

theorem insert_run_stays_wait (K : Consts) (s : TimeState) (B : Int) (k : Nat)
    (hB : 0 < B) (hdiv : B % 86400 = 0) (hk1 : 1 ≤ k) (hk2 : k ≤ 86400)
    (hmax : B + 1 ≤ LONG_MAX K)
    (hst : s.time_state = SyncState.TIME_OK) (hb : s.time_status &&& K.STA_INS ≠ 0)
    (n : Nat) : (ticks K s (B - k) (k + 2 + n)).time_state = SyncState.TIME_WAIT := by
  induction n with
  | zero => exact (insert_run_wait K s B k hB hdiv hk1 hk2 hmax hst hb).1
  | succ n ih =>
    have hbit := ticks_keep_bit K s (B - k) K.STA_INS hb (k + 2 + n)
    have h := (tick_wait K _ (B - k + ((k + 2 + n : Nat) : Int)) ih).1
    rw [if_neg (fun hc => hbit hc.1)] at h
    exact h

/-! ## The leap-delete run -/

theorem delete_run_del (K : Consts) (s : TimeState) (B : Int) (k : Nat)
    (hB : 0 < B) (hdiv : B % 86400 = 0) (hk1 : 2 ≤ k) (hk2 : k ≤ 86400)
    (hmax : B ≤ LONG_MAX K)
    (hst : s.time_state = SyncState.TIME_OK) (hb : s.time_status &&& K.STA_DEL ≠ 0)
    (hins : s.time_status &&& K.STA_INS = 0)
    (i : Nat) (hi : i + 1 < k) :
    (ticks K s (B - k) (i + 1)).time_state = SyncState.TIME_DEL ∧
    (ticks K s (B - k) (i + 1)).ntp_next_leap_sec = B - 1 := by
  induction i with
  | zero =>
    rw [ticks_succ]
    obtain ⟨a1, a2, -⟩ := tick_ok_del K s (B - k + (0 : Nat)) hst hins hb
    refine ⟨a1, a2.trans ?_⟩
    have e : B - (k : Int) + ((0 : Nat) : Int) = B - k := by simp
    rw [e, next_leap_del K (B - k) (by omega) (by omega)]
    omega
  | succ i ih =>
    obtain ⟨b1, b2⟩ := ih (by omega)
    rw [ticks_succ]
    have hbit := ticks_keep_bit K s (B - k) K.STA_DEL hb (i + 1)
    obtain ⟨a1, a2, -⟩ := tick_del_stay K _ (B - k + ((i + 1 : Nat) : Int)) b1 hbit
      (by rw [b2]; push_cast; omega)
    exact ⟨a1, a2.trans b2⟩

theorem delete_run_leap_before (K : Consts) (s : TimeState) (B : Int) (k : Nat)
    (hB : 0 < B) (hdiv : B % 86400 = 0) (hk1 : 2 ≤ k) (hk2 : k ≤ 86400)
    (hmax : B ≤ LONG_MAX K)
    (hst : s.time_state = SyncState.TIME_OK) (hb : s.time_status &&& K.STA_DEL ≠ 0)
    (hins : s.time_status &&& K.STA_INS = 0)
    (j : Nat) (hj : j + 1 < k) : leapAt K s (B - k) j = 0 := by
  unfold leapAt
  cases j with
  | zero => exact (tick_ok_del K s _ hst hins hb).2.2
  | succ i =>
    obtain ⟨b1, b2⟩ := delete_run_del K s B k hB hdiv hk1 hk2 hmax hst hb hins i (by omega)
    have hbit := ticks_keep_bit K s (B - k) K.STA_DEL hb (i + 1)
    exact (tick_del_stay K _ (B - k + ((i + 1 : Nat) : Int)) b1 hbit
      (by rw [b2]; push_cast; omega)).2.2

theorem delete_run_wait (K : Consts) (s : TimeState) (B : Int) (k : Nat)
    (hB : 0 < B) (hdiv : B % 86400 = 0) (hk1 : 2 ≤ k) (hk2 : k ≤ 86400)
    (hmax : B ≤ LONG_MAX K)
    (hst : s.time_state = SyncState.TIME_OK) (hb : s.time_status &&& K.STA_DEL ≠ 0)
    (hins : s.time_status &&& K.STA_INS = 0) :
    (ticks K s (B - k) k).time_state = SyncState.TIME_WAIT ∧
    (ticks K s (B - k) k).ntp_next_leap_sec = K.TIME_MAX ∧
    (∀ j : Nat, j + 1 = k → leapAt K s (B - k) j = 1) := by
  obtain ⟨i, rfl⟩ : ∃ i, k = i + 2 := ⟨k - 2, by omega⟩
  obtain ⟨b1, b2⟩ := delete_run_del K s B (i + 2) hB hdiv hk1 hk2 hmax hst hb hins i (by omega)
  have hbit := ticks_keep_bit K s (B - ((i + 2 : Nat) : Int)) K.STA_DEL hb (i + 1)
  obtain ⟨a1, a2, a3⟩ := tick_del_fire K _ (B - ((i + 2 : Nat) : Int) + ((i + 1 : Nat) : Int))
    b1 hbit (by rw [b2]; push_cast; omega)
  refine ⟨a1, a2, ?_⟩
  intro j hj
  have hji : j = i + 1 := by omega
  rw [hji]
  exact a3

/-! ## Lemmas on the frequency offset -/

theorem ntp_update_frequency_time_freq (K : Consts) (s : TimeState) :
    (ntp_update_frequency K s).time_freq = s.time_freq := rfl

theorem process_adj_status_time_freq (K : Consts) (s : TimeState) (txc : Timex) (now : Int) :
    (process_adj_status K s txc now).time_freq = s.time_freq := by
  unfold process_adj_status
  dsimp only
  split_ifs <;> rfl

theorem clamp_freq_bound (M x : Int) (hM : 0 ≤ M) : |max (min x M) (-M)| ≤ M := by
  rw [abs_le]
  constructor
  · exact le_max_right _ _
  · exact max_le (min_le_right _ _) (by omega)

theorem ntp_update_offset_freq_bound (K : Consts) (s : TimeState) (offset now : Int)
    (h : |s.time_freq| ≤ K.MAXFREQ_SCALED) :
    |(ntp_update_offset K s offset now).time_freq| ≤ K.MAXFREQ_SCALED := by
  have hM : 0 ≤ K.MAXFREQ_SCALED := le_trans (abs_nonneg _) h
  unfold ntp_update_offset
  by_cases hP : s.time_status &&& K.STA_PLL = 0
  · rw [if_pos hP]
    exact h
  · rw [if_neg hP]
    exact clamp_freq_bound _ _ hM

theorem ite_freq_bound (K : Consts) (c : Prop) [Decidable c] (a b : TimeState)
    (ha : |a.time_freq| ≤ K.MAXFREQ_SCALED) (hb : |b.time_freq| ≤ K.MAXFREQ_SCALED) :
    |(if c then a else b).time_freq| ≤ K.MAXFREQ_SCALED := by
  split_ifs
  · exact ha
  · exact hb

theorem process_adjtimex_modes_freq_bound (K : Consts) (s : TimeState) (txc : Timex)
    (now time_tai : Int) (h : |s.time_freq| ≤ K.MAXFREQ_SCALED) :
    |(process_adjtimex_modes K s txc now time_tai).1.time_freq| ≤ K.MAXFREQ_SCALED := by
  have hM : 0 ≤ K.MAXFREQ_SCALED := le_trans (abs_nonneg _) h
  unfold process_adjtimex_modes
  lift_lets
  intro s1 s2 s3 s4a s4b s4 s5 s6 s7a s7b s7c s7 tai s8 s9 s10
  have h1 : |s1.time_freq| ≤ K.MAXFREQ_SCALED :=
    ite_freq_bound K _ _ _ (by rw [process_adj_status_time_freq]; exact h) h
  have h2 : |s2.time_freq| ≤ K.MAXFREQ_SCALED := ite_freq_bound K _ _ _ h1 h1
  have h3 : |s3.time_freq| ≤ K.MAXFREQ_SCALED := ite_freq_bound K _ _ _ h2 h2
  have h4 : |s4.time_freq| ≤ K.MAXFREQ_SCALED :=
    ite_freq_bound K _ _ _ (clamp_freq_bound _ _ hM) h3
  have h5 : |s5.time_freq| ≤ K.MAXFREQ_SCALED := ite_freq_bound K _ _ _ h4 h4
  have h6 : |s6.time_freq| ≤ K.MAXFREQ_SCALED := ite_freq_bound K _ _ _ h5 h5
  have h7b : |s7b.time_freq| ≤ K.MAXFREQ_SCALED := ite_freq_bound K _ _ _ h6 h6
  have h7 : |s7.time_freq| ≤ K.MAXFREQ_SCALED := ite_freq_bound K _ _ _ h7b h6
  have h8 : |s8.time_freq| ≤ K.MAXFREQ_SCALED :=
    ite_freq_bound K _ _ _ (ntp_update_offset_freq_bound K _ _ _ h7) h7
  have h9 : |s9.time_freq| ≤ K.MAXFREQ_SCALED := ite_freq_bound K _ _ _ h8 h8
  have h10 : |s10.time_freq| ≤ K.MAXFREQ_SCALED :=
    ite_freq_bound K _ _ _ (by rw [ntp_update_frequency_time_freq]; exact h9) h9
  exact h10

/-! ## Lemmas on the error bound and the slew -/

theorem wrapLong_eq_of_bits (K : Consts) (x : Int) (hw : 0 < K.BITS_PER_LONG)
    (h0 : -(LONG_MAX K) - 1 ≤ x) (h1 : x ≤ LONG_MAX K) : wrapLong K x = x := by
  unfold LONG_MAX at h0 h1
  exact wrapS_eq_self _ _ hw (by omega) (by omega)

theorem lor_land_self (a b : Nat) : (a ||| b) &&& b = b := by
  apply Nat.eq_of_testBit_eq
  intro i
  rw [Nat.testBit_and, Nat.testBit_or]
  cases a.testBit i <;> cases b.testBit i <;> rfl

theorem leap_block_keeps (K : Consts) (s : TimeState) (secs : Int) :
    (leap_block K s secs).1.time_maxerror = s.time_maxerror ∧
    (leap_block K s secs).1.time_adjust = s.time_adjust ∧
    (leap_block K s secs).1.time_status = s.time_status := by
  unfold leap_block
  cases h : s.time_state <;> dsimp only <;> first | (split_ifs <;> simp) | simp

theorem phase_block_maxerror (K : Consts) (s : TimeState) (leap : Int) :
    (phase_block K s leap).1.time_maxerror =
      (if wrapLong K (s.time_maxerror + Int.tdiv K.MAXFREQ K.NSEC_PER_USEC) > K.NTP_PHASE_LIMIT
        then K.NTP_PHASE_LIMIT
        else wrapLong K (s.time_maxerror + Int.tdiv K.MAXFREQ K.NSEC_PER_USEC)) ∧
    (phase_block K s leap).1.time_status =
      (if wrapLong K (s.time_maxerror + Int.tdiv K.MAXFREQ K.NSEC_PER_USEC) > K.NTP_PHASE_LIMIT
        then s.time_status ||| K.STA_UNSYNC
        else s.time_status) := by
  unfold phase_block
  dsimp only
  split_ifs <;> simp

theorem phase_block_time_adjust (K : Consts) (s : TimeState) (leap : Int) :
    (phase_block K s leap).1.time_adjust =
      (if s.time_adjust > MAX_TICKADJ then wrapLong K (s.time_adjust - MAX_TICKADJ)
        else if s.time_adjust < -MAX_TICKADJ then wrapLong K (s.time_adjust + MAX_TICKADJ)
        else 0) := by
  unfold phase_block MAX_TICKADJ
  dsimp only
  split_ifs <;> first | rfl | omega | simp_all

theorem second_overflow_maxerror (K : Consts) (s : TimeState) (secs : Int) :
    (second_overflow K s secs).1.time_maxerror =
      (if wrapLong K (s.time_maxerror + Int.tdiv K.MAXFREQ K.NSEC_PER_USEC) > K.NTP_PHASE_LIMIT
        then K.NTP_PHASE_LIMIT
        else wrapLong K (s.time_maxerror + Int.tdiv K.MAXFREQ K.NSEC_PER_USEC)) ∧
    (second_overflow K s secs).1.time_status =
      (if wrapLong K (s.time_maxerror + Int.tdiv K.MAXFREQ K.NSEC_PER_USEC) > K.NTP_PHASE_LIMIT
        then s.time_status ||| K.STA_UNSYNC
        else s.time_status) := by
  rw [second_overflow_eq]
  obtain ⟨h1, h2⟩ := phase_block_maxerror K (leap_block K s secs).1 (leap_block K s secs).2
  obtain ⟨g1, -, g3⟩ := leap_block_keeps K s secs
  rw [g1] at h1 h2
  rw [g3] at h2
  exact ⟨h1, h2⟩

theorem second_overflow_time_adjust (K : Consts) (s : TimeState) (secs : Int) :
    (second_overflow K s secs).1.time_adjust =
      (if s.time_adjust > MAX_TICKADJ then wrapLong K (s.time_adjust - MAX_TICKADJ)
        else if s.time_adjust < -MAX_TICKADJ then wrapLong K (s.time_adjust + MAX_TICKADJ)
        else 0) := by
  rw [second_overflow_eq]
  have h := phase_block_time_adjust K (leap_block K s secs).1 (leap_block K s secs).2
  rw [(leap_block_keeps K s secs).2.1] at h
  exact h

theorem second_overflow_maxerror_min (K : Consts) (s : TimeState) (secs : Int)
    (hw : 0 < K.BITS_PER_LONG)
    (hinc : 0 ≤ Int.tdiv K.MAXFREQ K.NSEC_PER_USEC)
    (hfit : K.NTP_PHASE_LIMIT + Int.tdiv K.MAXFREQ K.NSEC_PER_USEC ≤ LONG_MAX K)
    (hlow : -(LONG_MAX K) - 1 ≤ s.time_maxerror)
    (h : s.time_maxerror ≤ K.NTP_PHASE_LIMIT) :
    (second_overflow K s secs).1.time_maxerror =
      min (s.time_maxerror + Int.tdiv K.MAXFREQ K.NSEC_PER_USEC) K.NTP_PHASE_LIMIT := by
  rw [(second_overflow_maxerror K s secs).1,
    wrapLong_eq_of_bits K _ hw (by omega) (by omega)]
  split_ifs with hc
  · rw [min_eq_right (by omega)]
  · rw [min_eq_left (by omega)]

/-! ## Lemmas on the status word of a request -/

theorem ronly_mask (x t R : Nat) (hR : R < 2 ^ 32) :
    ((x &&& R) ||| (t &&& int_not R)) &&& R = x &&& R := by
  unfold int_not
  apply Nat.eq_of_testBit_eq
  intro i
  have hm : (0xFFFFFFFF : Nat) = 2 ^ 32 - 1 := by norm_num
  rw [Nat.testBit_and, Nat.testBit_or, Nat.testBit_and, Nat.testBit_and, Nat.testBit_xor, hm,
    Nat.testBit_two_pow_sub_one]
  by_cases hi : i < 32
  · simp [hi]
    cases x.testBit i <;> cases R.testBit i <;> cases t.testBit i <;> rfl
  · have : R.testBit i = false := by
      apply Nat.testBit_lt_two_pow
      calc R < 2 ^ 32 := hR
        _ ≤ 2 ^ i := Nat.pow_le_pow_right (by norm_num) (by omega)
    simp [this]

theorem process_adj_status_status (K : Consts) (s : TimeState) (txc : Timex) (now : Int) :
    (process_adj_status K s txc now).time_status =
      ((if s.time_status &&& K.STA_PLL ≠ 0 ∧ txc.status &&& K.STA_PLL = 0
          then K.STA_UNSYNC else s.time_status) &&& K.STA_RONLY) |||
        (txc.status &&& int_not K.STA_RONLY) := by
  unfold process_adj_status
  dsimp only
  split_ifs <;> rfl

theorem process_adjtimex_modes_status (K : Consts) (s : TimeState) (txc : Timex)
    (now time_tai : Int)
    (hN : txc.modes &&& K.ADJ_NANO = 0) (hM : txc.modes &&& K.ADJ_MICRO = 0)
    (hO : txc.modes &&& K.ADJ_OFFSET = 0) :
    (process_adjtimex_modes K s txc now time_tai).1.time_status =
      (if txc.modes &&& K.ADJ_STATUS ≠ 0 then process_adj_status K s txc now
        else s).time_status := by
  unfold process_adjtimex_modes
  lift_lets
  intro s1 s2 s3 s4a s4b s4 s5 s6 s7a s7b s7c s7 tai s8 s9 s10
  have e2 : s2 = s1 := if_neg (by simp [hN])
  have e3 : s3 = s2 := if_neg (by simp [hM])
  have e4 : s4.time_status = s3.time_status := by
    show (if _ then _ else _ : TimeState).time_status = _
    split_ifs <;> rfl
  have e5 : s5.time_status = s4.time_status := by
    show (if _ then _ else _ : TimeState).time_status = _
    split_ifs <;> rfl
  have e6 : s6.time_status = s5.time_status := by
    show (if _ then _ else _ : TimeState).time_status = _
    split_ifs <;> rfl
  have e7b : s7b.time_status = s6.time_status := by
    show (if _ then _ else _ : TimeState).time_status = _
    split_ifs <;> rfl
  have e7 : s7.time_status = s6.time_status := by
    show (if _ then _ else _ : TimeState).time_status = _
    split_ifs
    · exact e7b
    · rfl
  have e8 : s8 = s7 := if_neg (by simp [hO])
  have e9 : s9.time_status = s8.time_status := by
    show (if _ then _ else _ : TimeState).time_status = _
    split_ifs <;> rfl
  have e10 : s10.time_status = s9.time_status := by
    show (if _ then _ else _ : TimeState).time_status = _
    split_ifs <;> rfl
  show s10.time_status = s1.time_status
  rw [e10, e9, e8, e7, e6, e5, e4, e3, e2]

/-! ## Lemmas on the phase offset -/

theorem tdiv_bound (X A F : Int) (hF : 0 < F) (h1 : -A ≤ X) (h2 : X ≤ A) :
    -(Int.tdiv A F) ≤ Int.tdiv X F ∧ Int.tdiv X F ≤ Int.tdiv A F := by
  have hA : 0 ≤ A := by omega
  have hAF : Int.tdiv A F = A / F := Int.tdiv_eq_ediv hA (le_of_lt hF)
  have hAF0 : 0 ≤ A / F := Int.ediv_nonneg hA (le_of_lt hF)
  rw [hAF]
  by_cases hX : 0 ≤ X
  · rw [Int.tdiv_eq_ediv hX (le_of_lt hF)]
    have := Int.ediv_le_ediv hF h2
    have := Int.ediv_nonneg hX (le_of_lt hF)
    constructor <;> omega
  · have hY : 0 ≤ -X := by omega
    have e : Int.tdiv X F = -((-X) / F) := by
      have := Int.neg_tdiv (-X) F
      rw [neg_neg] at this
      rw [this, Int.tdiv_eq_ediv hY (le_of_lt hF)]
    rw [e]
    have := Int.ediv_le_ediv hF (show -X ≤ A by omega)
    have := Int.ediv_nonneg hY (le_of_lt hF)
    constructor <;> omega

theorem clamp_bounds (x lo hi : Int) (h : lo ≤ hi) :
    lo ≤ clamp x lo hi ∧ clamp x lo hi ≤ hi := by
  unfold clamp
  exact ⟨le_min (le_max_right _ _) h, min_le_right _ _⟩

theorem ntp_update_offset_time_offset (K : Consts) (s : TimeState) (offset now : Int)
    (hPLL : s.time_status &&& K.STA_PLL ≠ 0) :
    (ntp_update_offset K s offset now).time_offset =
      div_s64 (shl64 (clamp (if s.time_status &&& K.STA_NANO = 0 then
        wrapLong K (clamp offset (-K.USEC_PER_SEC) K.USEC_PER_SEC * K.NSEC_PER_USEC)
        else offset) (-K.MAXPHASE) K.MAXPHASE) K.NTP_SCALE_SHIFT) K.NTP_INTERVAL_FREQ := by
  unfold ntp_update_offset
  rw [if_neg hPLL]

/-! ## Lemmas on the mode bit -/

theorem testBit_int_not (x i : Nat) :
    (int_not x).testBit i = (x.testBit i ^^ decide (i < 32)) := by
  unfold int_not
  have hm : (0xFFFFFFFF : Nat) = 2 ^ 32 - 1 := by norm_num
  rw [Nat.testBit_xor, hm, Nat.testBit_two_pow_sub_one]

theorem testBit_high (x : Nat) (h : x < 2 ^ 32) (i : Nat) (hi : ¬ i < 32) :
    x.testBit i = false := by
  apply Nat.testBit_lt_two_pow
  calc x < 2 ^ 32 := h
    _ ≤ 2 ^ i := Nat.pow_le_pow_right (by norm_num) (by omega)

theorem land_not_self (st M : Nat) (hst : st < 2 ^ 32) : (st &&& int_not M) &&& M = 0 := by
  apply Nat.eq_of_testBit_eq
  intro i
  rw [Nat.testBit_and, Nat.testBit_and, testBit_int_not, Nat.zero_testBit]
  by_cases hi : i < 32
  · simp [hi]
  · simp [testBit_high st hst i hi]

theorem land_not_other (st M F : Nat) (hst : st < 2 ^ 32) (hFM : F &&& M = 0) :
    (st &&& int_not M) &&& F = st &&& F := by
  apply Nat.eq_of_testBit_eq
  intro i
  have hb : (F.testBit i && M.testBit i) = false := by
    rw [← Nat.testBit_and, hFM, Nat.zero_testBit]
  rw [Nat.testBit_and, Nat.testBit_and, testBit_int_not, Nat.testBit_and]
  by_cases hi : i < 32
  · simp only [hi, decide_True]
    revert hb
    cases st.testBit i <;> cases M.testBit i <;> cases F.testBit i <;> simp
  · simp [testBit_high st hst i hi]

theorem lor_land_not (st M : Nat) (hM : M < 2 ^ 32) :
    ((st &&& int_not M) ||| M) &&& int_not M = st &&& int_not M := by
  apply Nat.eq_of_testBit_eq
  intro i
  rw [Nat.testBit_and, Nat.testBit_or, Nat.testBit_and, testBit_int_not]
  by_cases hi : i < 32
  · simp only [hi, decide_True]
    cases st.testBit i <;> cases M.testBit i <;> rfl
  · simp [testBit_high M hM i hi]

theorem ntp_update_offset_fll_eq (K : Consts) (s : TimeState) (offset64 secs : Int)
    (hst : s.time_status < 2 ^ 32) (hFM : K.STA_FLL &&& K.STA_MODE = 0) :
    ntp_update_offset_fll K s offset64 secs =
      if K.MINSEC ≤ secs ∧ (s.time_status &&& K.STA_FLL ≠ 0 ∨ K.MAXSEC < secs) then
        ({ s with time_status := (s.time_status &&& int_not K.STA_MODE) ||| K.STA_MODE },
          div64_long (shl64 offset64 (K.NTP_SCALE_SHIFT - K.SHIFT_FLL)) secs)
      else ({ s with time_status := s.time_status &&& int_not K.STA_MODE }, 0) := by
  unfold ntp_update_offset_fll
  dsimp only
  rw [land_not_other s.time_status K.STA_MODE K.STA_FLL hst hFM]
  by_cases h1 : secs < K.MINSEC
  · rw [if_pos h1, if_neg (fun h => by omega)]
  · rw [if_neg h1]
    by_cases h2 : s.time_status &&& K.STA_FLL = 0 ∧ secs ≤ K.MAXSEC
    · rw [if_pos h2, if_neg]
      rintro ⟨-, h | h⟩
      · exact h h2.1
      · omega
    · rw [if_neg h2, if_pos]
      refine ⟨by omega, ?_⟩
      by_cases h3 : s.time_status &&& K.STA_FLL = 0
      · right
        by_contra h4
        exact h2 ⟨h3, by omega⟩
      · left
        exact h3

/-! ## Lemmas on the frequency hold -/

theorem wrapS64_zero : wrapS 64 0 = 0 :=
  wrapS_eq_self 64 0 (by norm_num) (by norm_num) (by norm_num)

theorem ntp_update_offset_fll_zero (K : Consts) (s : TimeState) (x : Int)
    (hMIN : 0 < K.MINSEC) :
    ntp_update_offset_fll K s x 0 =
      ({ s with time_status := s.time_status &&& int_not K.STA_MODE }, 0) := by
  unfold ntp_update_offset_fll
  simp [hMIN]

theorem ntp_update_offset_freqhold (K : Consts) (s : TimeState) (offset now : Int)
    (hMIN : 0 < K.MINSEC)
    (hlim : 0 ≤ wrapS 32 (2 ^ (K.SHIFT_PLL + 1 + s.time_constant).toNat))
    (hPLL : s.time_status &&& K.STA_PLL ≠ 0)
    (hHOLD : s.time_status &&& K.STA_FREQHOLD ≠ 0) :
    (ntp_update_offset K s offset now).time_freq =
      max (min (wrapS 64 s.time_freq) K.MAXFREQ_SCALED) (-K.MAXFREQ_SCALED) ∧
    (ntp_update_offset K s offset now).time_status = s.time_status &&& int_not K.STA_MODE ∧
    (ntp_update_offset K s offset now).time_reftime = now := by
  unfold ntp_update_offset
  rw [if_neg hPLL]
  simp only [hHOLD, ne_eq, not_false_eq_true, if_true, ntp_update_offset_fll_zero K _ _ hMIN]
  have hl : ¬ (0 > wrapS 32 (2 ^ (K.SHIFT_PLL + 1 + s.time_constant).toNat)) := by omega
  simp only [hl, if_false, mul_zero, wrapS64_zero, shl64, zero_mul, add_zero, zero_add,
    and_self, and_true]

theorem pll_limit_nonneg (K : Consts) (tc : Int) (htc0 : 0 ≤ tc) (htc1 : tc ≤ K.MAXTC)
    (hshift : K.SHIFT_PLL + 1 + K.MAXTC < 31) :
    0 ≤ wrapS 32 (2 ^ (K.SHIFT_PLL + 1 + tc).toNat) ∧
    (((K.SHIFT_PLL + 1 + tc).toNat : Nat) : Int) = K.SHIFT_PLL + 1 + tc := by
  have hn : (K.SHIFT_PLL + 1 + tc).toNat ≤ 30 := by omega
  have hp : (2 : Int) ^ (K.SHIFT_PLL + 1 + tc).toNat ≤ 2 ^ 30 :=
    pow_le_pow_right₀ (by norm_num) hn
  have hp0 : (0 : Int) < 2 ^ (K.SHIFT_PLL + 1 + tc).toNat := by positivity
  rw [wrapS_eq_self 32 _ (by norm_num) (by norm_num; omega) (by norm_num; omega)]
  exact ⟨by omega, Int.toNat_of_nonneg (by omega)⟩

/-! ## Lemmas on the phase decay -/

theorem leap_block_keeps_phase (K : Consts) (s : TimeState) (secs : Int) :
    (leap_block K s secs).1.time_offset = s.time_offset ∧
    (leap_block K s secs).1.tick_length_base = s.tick_length_base ∧
    (leap_block K s secs).1.time_constant = s.time_constant := by
  unfold leap_block
  cases h : s.time_state <;> dsimp only <;> first | (split_ifs <;> simp) | simp

theorem phase_block_decay (K : Consts) (s : TimeState) (leap : Int)
    (hadj : s.time_adjust = 0) :
    (phase_block K s leap).1.time_offset =
      wrapS 64 (s.time_offset -
        shift_right s.time_offset (wrapLong K (K.SHIFT_PLL + s.time_constant))) ∧
    (phase_block K s leap).1.tick_length =
      wrapU 64 (s.tick_length_base +
        shift_right s.time_offset (wrapLong K (K.SHIFT_PLL + s.time_constant))) ∧
    (phase_block K s leap).1.tick_length_base = s.tick_length_base := by
  unfold phase_block ntp_offset_chunk
  dsimp only
  split_ifs <;> simp_all

theorem second_overflow_decay (K : Consts) (s : TimeState) (secs : Int)
    (hadj : s.time_adjust = 0) :
    (second_overflow K s secs).1.time_offset =
      wrapS 64 (s.time_offset -
        shift_right s.time_offset (wrapLong K (K.SHIFT_PLL + s.time_constant))) ∧
    (second_overflow K s secs).1.tick_length =
      wrapU 64 (s.tick_length_base +
        shift_right s.time_offset (wrapLong K (K.SHIFT_PLL + s.time_constant))) ∧
    (second_overflow K s secs).1.tick_length_base = s.tick_length_base := by
  rw [second_overflow_eq]
  have h := phase_block_decay K (leap_block K s secs).1 (leap_block K s secs).2
    (by rw [(leap_block_keeps K s secs).2.1]; exact hadj)
  obtain ⟨g1, g2, g3⟩ := leap_block_keeps_phase K s secs
  rw [g1, g2, g3] at h
  exact h

theorem shift_right_eq_tdiv (x n : Int) (h1 : -(2 ^ 63) < x) (h2 : x < 2 ^ 63) :
    shift_right x n = Int.tdiv x (2 ^ n.toNat) := by
  have hP : (0 : Int) < 2 ^ n.toNat := by positivity
  unfold shift_right
  by_cases hx : x < 0
  · rw [if_pos hx, wrapS_eq_self 64 (-x) (by norm_num) (by norm_num; omega) (by norm_num; omega),
      Int.shiftRight_eq_div_pow]
    have hq0 : 0 ≤ -x / 2 ^ n.toNat := Int.ediv_nonneg (by omega) (le_of_lt hP)
    have hq1 : -x / 2 ^ n.toNat ≤ -x := Int.ediv_le_self _ (by omega)
    have e : Int.tdiv x (2 ^ n.toNat) = -(-x / 2 ^ n.toNat) := by
      have := Int.neg_tdiv (-x) (2 ^ n.toNat)
      rw [neg_neg] at this
      rw [this, Int.tdiv_eq_ediv (by omega) (le_of_lt hP)]
    push_cast
    rw [e]
    exact wrapS_eq_self 64 _ (by norm_num) (by norm_num; omega) (by norm_num; omega)
  · rw [if_neg hx, Int.shiftRight_eq_div_pow, Int.tdiv_eq_ediv (by omega) (le_of_lt hP)]
    push_cast
    rfl

theorem tdiv_toward_zero (x P : Int) (hP : 0 < P) :
    (0 ≤ x → 0 ≤ Int.tdiv x P ∧ Int.tdiv x P ≤ x) ∧
    (x ≤ 0 → x ≤ Int.tdiv x P ∧ Int.tdiv x P ≤ 0) := by
  constructor
  · intro hx
    rw [Int.tdiv_eq_ediv hx (le_of_lt hP)]
    exact ⟨Int.ediv_nonneg hx (le_of_lt hP), Int.ediv_le_self _ hx⟩
  · intro hx
    have e : Int.tdiv x P = -(-x / P) := by
      have := Int.neg_tdiv (-x) P
      rw [neg_neg] at this
      rw [this, Int.tdiv_eq_ediv (by omega) (le_of_lt hP)]
    have hq0 : 0 ≤ -x / P := Int.ediv_nonneg (by omega) (le_of_lt hP)
    have hq1 : -x / P ≤ -x := Int.ediv_le_self _ (by omega)
    rw [e]
    constructor <;> omega

/-! ## Lemmas on the leap-second schedule -/

theorem leap_switch_schedule (K : Consts) (st : SyncState) (status : Nat) (next secs : Int)
    (h : st = SyncState.TIME_OK ∨ st = SyncState.TIME_WAIT → next = K.TIME_MAX) :
    (leap_switch K st status next secs).1 = SyncState.TIME_OK ∨
      (leap_switch K st status next secs).1 = SyncState.TIME_WAIT →
    (leap_switch K st status next secs).2.1 = K.TIME_MAX := by
  unfold leap_switch
  cases st <;> simp at h ⊢ <;> split_ifs <;> simp [h]

theorem process_adj_status_schedule (K : Consts) (s : TimeState) (txc : Timex) (now : Int) :
    ((process_adj_status K s txc now).time_state = SyncState.TIME_OK ∧
      (process_adj_status K s txc now).ntp_next_leap_sec = K.TIME_MAX) ∨
    ((process_adj_status K s txc now).time_state = s.time_state ∧
      (process_adj_status K s txc now).ntp_next_leap_sec = s.ntp_next_leap_sec) := by
  unfold process_adj_status
  dsimp only
  split_ifs <;> simp

theorem applyLeapCall_schedule (K : Consts) (s : TimeState) (c : LeapCall)
    (h : s.time_state = SyncState.TIME_OK ∨ s.time_state = SyncState.TIME_WAIT →
      s.ntp_next_leap_sec = K.TIME_MAX) :
    (applyLeapCall K s c).time_state = SyncState.TIME_OK ∨
      (applyLeapCall K s c).time_state = SyncState.TIME_WAIT →
    (applyLeapCall K s c).ntp_next_leap_sec = K.TIME_MAX := by
  cases c with
  | tick secs =>
    simp only [applyLeapCall]
    obtain ⟨e1, e2, -⟩ := second_overflow_leap K s secs
    rw [e1, e2]
    exact leap_switch_schedule K _ _ _ _ h
  | adj_status txc now =>
    simp only [applyLeapCall]
    rcases process_adj_status_schedule K s txc now with ⟨-, a2⟩ | ⟨a1, a2⟩
    · intro _
      exact a2
    · rw [a1, a2]
      exact h
  | clear =>
    intro _
    rfl

theorem applyLeapCalls_schedule (K : Consts) (cs : List LeapCall) (s : TimeState)
    (h : s.time_state = SyncState.TIME_OK ∨ s.time_state = SyncState.TIME_WAIT →
      s.ntp_next_leap_sec = K.TIME_MAX) :
    (applyLeapCalls K s cs).time_state = SyncState.TIME_OK ∨
      (applyLeapCalls K s cs).time_state = SyncState.TIME_WAIT →
    (applyLeapCalls K s cs).ntp_next_leap_sec = K.TIME_MAX := by
  induction cs generalizing s with
  | nil => exact h
  | cons c cs ih =>
    show (applyLeapCalls K (applyLeapCall K s c) cs).time_state = _ ∨ _ → _
    exact ih _ (applyLeapCall_schedule K s c h)

/-! ## Lemmas on `ntp_update_frequency` -/

theorem emod_mul_emod_left (a b m : Int) : (a % m * b) % m = (a * b) % m :=
  (Int.mod_modEq a m).mul_right b

theorem ntp_update_frequency_fields (K : Consts) (s : TimeState) :
    (ntp_update_frequency K s).tick_length_base =
      div_u64 (wrapU 64 (wrapU 64 (wrapU 64 (wrapU 64 (wrapULong K
        (s.tick_usec * K.NSEC_PER_USEC * K.USER_HZ)) * 2 ^ K.NTP_SCALE_SHIFT) +
          s.ntp_tick_adj) + s.time_freq)) K.NTP_INTERVAL_FREQ ∧
    (ntp_update_frequency K s).tick_nsec =
      wrapULong K (div_u64 (wrapU 64 (wrapU 64 (wrapU 64 (wrapU 64 (wrapULong K
        (s.tick_usec * K.NSEC_PER_USEC * K.USER_HZ)) * 2 ^ K.NTP_SCALE_SHIFT) +
          s.ntp_tick_adj) + s.time_freq)) K.HZ >>> K.NTP_SCALE_SHIFT) ∧
    (ntp_update_frequency K s).tick_length =
      wrapU 64 (s.tick_length +
        ((ntp_update_frequency K s).tick_length_base - s.tick_length_base)) :=
  ⟨rfl, rfl, rfl⟩

theorem second_length_eq (K : Consts) (s : TimeState) (h64 : K.BITS_PER_LONG = 64) :
    wrapU 64 (wrapU 64 (wrapU 64 (wrapU 64 (wrapULong K
      (s.tick_usec * K.NSEC_PER_USEC * K.USER_HZ)) * 2 ^ K.NTP_SCALE_SHIFT) +
        s.ntp_tick_adj) + s.time_freq) = second_length K s := by
  unfold second_length wrapULong wrapU
  rw [h64, Int.emod_emod, emod_mul_emod_left, Int.emod_add_emod, add_assoc,
    Int.emod_add_emod, ← add_assoc]

/-! ## C1: validation has no effect on the state -/

/-- C1: for every state and every request, `ntp_validate_timex` hands back
the state it was given, whatever its result: no field of `TimeState`
(time_state, time_status, time_offset, time_freq, time_constant,
time_maxerror, time_esterror, time_reftime, time_adjust, tick_usec, tick_nsec,
tick_length, tick_length_base, ntp_next_leap_sec) is modified, so every
rejected request leaves the state unchanged. -/
theorem C1_validate_frame (K : Consts) (s : TimeState) (txc : Timex) :
    (ntp_validate_timex K s txc).1 = s := by
  unfold ntp_validate_timex
  dsimp only
  split
  · rfl
  · split
    · rfl
    · split_ifs <;> rfl

/-! ## C2: the one-shot `ADJ_ADJTIME` mode -/

/-- C2, as stated, fails: with the reference constants the request whose
modes are `ADJ_ADJTIME` alone (0x8000) sets `ADJ_ADJTIME`, does not set
`ADJ_OFFSET_SINGLESHOT`, and is rejected with `-EINVAL` (-22), not with
`-EPERM` (-1). -/
theorem C2_counterexample :
    ({ txcZero with modes := 0x8000 } : Timex).modes &&& refConsts.ADJ_ADJTIME ≠ 0 ∧
    ({ txcZero with modes := 0x8000 } : Timex).modes &&& refConsts.ADJ_OFFSET_SINGLESHOT = 0 ∧
    (ntp_validate_timex refConsts (initialState refConsts)
      { txcZero with modes := 0x8000 }).2 = -22 ∧
    (ntp_validate_timex refConsts (initialState refConsts)
      { txcZero with modes := 0x8000 }).2 ≠ -refConsts.EPERM := by
  decide

/-- C2, amended: for every request whose modes set `ADJ_ADJTIME` but not both
`ADJ_OFFSET_SINGLESHOT` and `ADJ_OFFSET_READONLY`, `ntp_validate_timex` fails:
with `-EINVAL` when `ADJ_OFFSET_SINGLESHOT` is not set, and with `-EPERM` when
`ADJ_OFFSET_SINGLESHOT` is set and `ADJ_OFFSET_READONLY` is not. -/
theorem C2_adjtime_rejected (K : Consts) (s : TimeState) (txc : Timex)
    (hA : txc.modes &&& K.ADJ_ADJTIME ≠ 0)
    (hB : txc.modes &&& K.ADJ_OFFSET_SINGLESHOT = 0 ∨ txc.modes &&& K.ADJ_OFFSET_READONLY = 0) :
    (ntp_validate_timex K s txc).2 =
      if txc.modes &&& K.ADJ_OFFSET_SINGLESHOT = 0 then -K.EINVAL else -K.EPERM := by
  unfold ntp_validate_timex
  by_cases h1 : txc.modes &&& K.ADJ_OFFSET_SINGLESHOT = 0
  · simp [hA, h1]
  · have h2 : txc.modes &&& K.ADJ_OFFSET_READONLY = 0 := by
      rcases hB with h | h
      · exact absurd h h1
      · exact h
    simp [hA, h1, h2]

/-- Witness for C2: `ADJ_ADJTIME | ADJ_OFFSET_SINGLESHOT` (0x8001) without
`ADJ_OFFSET_READONLY` is rejected with `-EPERM`. -/
theorem C2_adjtime_rejected_witness :
    (ntp_validate_timex refConsts (initialState refConsts)
      { txcZero with modes := 0x8001 }).2 = -1 :=
  C2_adjtime_rejected refConsts (initialState refConsts) { txcZero with modes := 0x8001 }
    (by decide) (Or.inr (by decide))

/-! ## C3: the tick band -/

/-- C3 does not hold on the code, whose tick-band check is unreachable: with
the reference constants the request with modes `ADJ_TICK` (0x4000) and
`tick = 5000 = 500000/USER_HZ`, below `900000/USER_HZ = 9000`, gets `-EPERM`
(-1) from the guard `if (txc->modes) return -EPERM`, not the `-EINVAL` which
the check that follows the guard (and its comment, "if the quartz is off by
more than 10% then something is VERY wrong") is written to return. Past the
guard `modes` is zero, so `txc->modes & ADJ_TICK` never holds there: for every
request, replacing `tick` by any other value leaves the result of
`ntp_validate_timex` unchanged. -/
theorem C3_tick_band_never_checked :
    (({ txcZero with modes := 0x4000, tick := 5000 } : Timex).modes &&& refConsts.ADJ_TICK ≠ 0 ∧
      ({ txcZero with modes := 0x4000, tick := 5000 } : Timex).tick <
        Int.tdiv 900000 refConsts.USER_HZ ∧
      (ntp_validate_timex refConsts (initialState refConsts)
        { txcZero with modes := 0x4000, tick := 5000 }).2 = -refConsts.EPERM ∧
      (ntp_validate_timex refConsts (initialState refConsts)
        { txcZero with modes := 0x4000, tick := 5000 }).2 ≠ -refConsts.EINVAL) ∧
    (∀ (K : Consts) (s : TimeState) (txc : Timex) (t : Int),
      ntp_validate_timex K s { txc with tick := t } = ntp_validate_timex K s txc) := by
  refine ⟨by decide, ?_⟩
  intro K s txc t
  unfold ntp_validate_timex
  by_cases hm : txc.modes = 0
  · simp [hm]
  · by_cases hA : txc.modes &&& K.ADJ_ADJTIME = 0
    · simp [hA, hm]
    · simp [hA]

/-! ## C4: the frequency range -/

/-- C4, as stated, fails: with the reference constants (64-bit build) the
request with modes `ADJ_FREQUENCY` (0x0002) and `freq = 0`, which lies within
`LLONG_MIN/PPM_SCALE .. LLONG_MAX/PPM_SCALE` and has none of `ADJ_ADJTIME`,
`ADJ_TICK`, `ADJ_SETOFFSET`, is not accepted: the result is `-EPERM` (-1). -/
theorem C4_counterexample :
    refConsts.BITS_PER_LONG = 64 ∧
    ({ txcZero with modes := 0x0002 } : Timex).modes &&& refConsts.ADJ_FREQUENCY ≠ 0 ∧
    ({ txcZero with modes := 0x0002 } : Timex).modes &&&
      (refConsts.ADJ_ADJTIME ||| refConsts.ADJ_TICK ||| refConsts.ADJ_SETOFFSET) = 0 ∧
    Int.tdiv LLONG_MIN refConsts.PPM_SCALE ≤ ({ txcZero with modes := 0x0002 } : Timex).freq ∧
    ({ txcZero with modes := 0x0002 } : Timex).freq ≤ Int.tdiv LLONG_MAX refConsts.PPM_SCALE ∧
    (ntp_validate_timex refConsts (initialState refConsts)
      { txcZero with modes := 0x0002 }).2 = -1 := by
  decide

/-- C4, amended: on a 64-bit build, for a request with `ADJ_FREQUENCY` set
and `ADJ_SETOFFSET` clear: without `ADJ_ADJTIME` it is rejected with `-EPERM`
whatever `freq`; with `ADJ_ADJTIME` it is rejected with `-EINVAL` when
`ADJ_OFFSET_SINGLESHOT` is clear and with `-EPERM` when `ADJ_OFFSET_READONLY`
is clear; with all three set it returns 0 if
`LLONG_MIN/PPM_SCALE <= freq <= LLONG_MAX/PPM_SCALE` and `-EINVAL` if `freq`
lies outside that range. -/
theorem C4_frequency_range (K : Consts) (s : TimeState) (txc : Timex)
    (h64 : K.BITS_PER_LONG = 64)
    (hF : txc.modes &&& K.ADJ_FREQUENCY ≠ 0)
    (hS : txc.modes &&& K.ADJ_SETOFFSET = 0) :
    (ntp_validate_timex K s txc).2 =
      if txc.modes &&& K.ADJ_ADJTIME = 0 then -K.EPERM
      else if txc.modes &&& K.ADJ_OFFSET_SINGLESHOT = 0 then -K.EINVAL
      else if txc.modes &&& K.ADJ_OFFSET_READONLY = 0 then -K.EPERM
      else if Int.tdiv LLONG_MIN K.PPM_SCALE ≤ txc.freq ∧
          txc.freq ≤ Int.tdiv LLONG_MAX K.PPM_SCALE then 0
      else -K.EINVAL := by
  have hm : txc.modes ≠ 0 := by
    intro h0
    rw [h0] at hF
    simp at hF
  unfold ntp_validate_timex
  by_cases hA : txc.modes &&& K.ADJ_ADJTIME = 0
  · simp [hA, hm]
  · by_cases h1 : txc.modes &&& K.ADJ_OFFSET_SINGLESHOT = 0
    · simp [hA, h1]
    · by_cases h2 : txc.modes &&& K.ADJ_OFFSET_READONLY = 0
      · simp [hA, h1, h2]
      · simp only [hA, h1, h2, hS, hF, h64, ne_eq, not_true_eq_false, not_false_eq_true,
          if_true, if_false, and_self]
        by_cases h3 : Int.tdiv LLONG_MIN K.PPM_SCALE > txc.freq
        · have : ¬ (Int.tdiv LLONG_MIN K.PPM_SCALE ≤ txc.freq ∧
              txc.freq ≤ Int.tdiv LLONG_MAX K.PPM_SCALE) := by
            intro h
            omega
          simp [h3, this]
        · by_cases h4 : Int.tdiv LLONG_MAX K.PPM_SCALE < txc.freq
          · have : ¬ (Int.tdiv LLONG_MIN K.PPM_SCALE ≤ txc.freq ∧
                txc.freq ≤ Int.tdiv LLONG_MAX K.PPM_SCALE) := by
              intro h
              omega
            simp [h3, h4, this]
          · have : Int.tdiv LLONG_MIN K.PPM_SCALE ≤ txc.freq ∧
                txc.freq ≤ Int.tdiv LLONG_MAX K.PPM_SCALE := by
              constructor <;> omega
            simp [h3, h4, this]

/-- Witness for C4: `ADJ_ADJTIME | ADJ_OFFSET_SINGLESHOT | ADJ_OFFSET_READONLY |
ADJ_FREQUENCY` (0xa003) with `freq = 140737488356`, one above
`LLONG_MAX/PPM_SCALE`, is rejected with `-EINVAL` (-22). -/
theorem C4_frequency_range_witness :
    (ntp_validate_timex refConsts (initialState refConsts)
      { txcZero with modes := 0xa003, freq := 140737488356 }).2 = -22 :=
  C4_frequency_range refConsts (initialState refConsts)
    { txcZero with modes := 0xa003, freq := 140737488356 } (by decide) (by decide) (by decide)

/-! ## C5: the leap-second transition table -/

/-- C5, as stated ("for every secs >= 0"), fails at the upper end of `time_t`:
with the reference constants (64-bit `time_t`), in state OK with `STA_INS` set
and `secs = 2^63 - 1`, the sum `secs + SECS_PER_DAY - rem` leaves the range of
`time_t`; `second_overflow` stores `-9223372036854745216`, whereas the table
gives `secs + 86400 - (secs mod 86400) = 9223372036854806400`. -/
theorem C5_counterexample :
    (0 : Int) ≤ 2 ^ 63 - 1 ∧ (2 ^ 63 - 1 : Int) ≤ LONG_MAX refConsts ∧
    stateIns.time_state = SyncState.TIME_OK ∧
    stateIns.time_status &&& refConsts.STA_INS ≠ 0 ∧
    (second_overflow refConsts stateIns (2 ^ 63 - 1)).1.ntp_next_leap_sec =
      -9223372036854745216 ∧
    (leapTable refConsts stateIns.time_state stateIns.time_status
      stateIns.ntp_next_leap_sec (2 ^ 63 - 1)).2.1 = 9223372036854806400 := by
  decide

/-- C5, amended: for every (time_state, time_status, ntp_next_leap_sec) and
every secs with `0 <= secs` and `secs + 86400 <= LONG_MAX` (the largest
`time_t`), the new `time_state`, the new `ntp_next_leap_sec` and the value
returned by `second_overflow` are those of the transition table of the
specification, `leapTable`. -/
theorem C5_leap_table (K : Consts) (s : TimeState) (secs : Int)
    (h0 : 0 ≤ secs) (h1 : secs + 86400 ≤ LONG_MAX K) :
    ((second_overflow K s secs).1.time_state,
      (second_overflow K s secs).1.ntp_next_leap_sec,
      (second_overflow K s secs).2) =
    leapTable K s.time_state s.time_status s.ntp_next_leap_sec secs := by
  obtain ⟨e1, e2, e3⟩ := second_overflow_leap K s secs
  rw [e1, e2, e3, ← leap_switch_eq_table K _ _ _ _ h0 h1]

/-- Witness for C5: state OK with `STA_INS` set at `secs = 86399`. -/
theorem C5_leap_table_witness :
    ((second_overflow refConsts stateIns 86399).1.time_state,
      (second_overflow refConsts stateIns 86399).1.ntp_next_leap_sec,
      (second_overflow refConsts stateIns 86399).2) =
    leapTable refConsts stateIns.time_state stateIns.time_status
      stateIns.ntp_next_leap_sec 86399 :=
  C5_leap_table refConsts stateIns 86399 (by decide) (by decide)

/-! ## C6: the leap-insert cycle -/

/-- C6: for every day boundary `B` (a positive multiple of 86400, with `B + 1`
still a `time_t`) and every `k` with `1 <= k <= 86400`, starting from state OK
with `STA_INS` set and calling `second_overflow` at the consecutive seconds
`B-k, B-k+1, ..., B, B+1` with nothing in between: after each of the first `k`
calls the state is INS with `ntp_next_leap_sec = B`; after call `k+1` (at
`secs = B`) the state is OOP; after the following call the state is WAIT with
`ntp_next_leap_sec = TIME_MAX` (never); and call number `j+1` returns -1 if
`j = k` (the OOP transition) and 0 otherwise. -/
theorem C6_insert_cycle (K : Consts) (s : TimeState) (B : Int) (k : Nat)
    (hB : 0 < B) (hdiv : B % 86400 = 0) (hk1 : 1 ≤ k) (hk2 : k ≤ 86400)
    (hmax : B + 1 ≤ LONG_MAX K)
    (hst : s.time_state = SyncState.TIME_OK) (hb : s.time_status &&& K.STA_INS ≠ 0) :
    (∀ j : Nat, 1 ≤ j → j ≤ k →
      (ticks K s (B - k) j).time_state = SyncState.TIME_INS ∧
      (ticks K s (B - k) j).ntp_next_leap_sec = B) ∧
    (ticks K s (B - k) (k + 1)).time_state = SyncState.TIME_OOP ∧
    (ticks K s (B - k) (k + 2)).time_state = SyncState.TIME_WAIT ∧
    (ticks K s (B - k) (k + 2)).ntp_next_leap_sec = K.TIME_MAX ∧
    (∀ j : Nat, j < k + 2 → leapAt K s (B - k) j = if j = k then -1 else 0) := by
  refine ⟨?_, (insert_run_oop K s B k hB hdiv hk1 hk2 hmax hst hb).1,
    (insert_run_wait K s B k hB hdiv hk1 hk2 hmax hst hb).1,
    (insert_run_wait K s B k hB hdiv hk1 hk2 hmax hst hb).2.1, ?_⟩
  · intro j hj1 hj2
    obtain ⟨i, rfl⟩ : ∃ i, j = i + 1 := ⟨j - 1, by omega⟩
    exact insert_run_ins K s B k hB hdiv hk1 hk2 hmax hst hb i hj2
  · intro j hj
    by_cases h1 : j = k
    · rw [if_pos h1, h1]
      exact (insert_run_oop K s B k hB hdiv hk1 hk2 hmax hst hb).2
    · rw [if_neg h1]
      by_cases h2 : j < k
      · exact insert_run_leap_before K s B k hB hdiv hk1 hk2 hmax hst hb j h2
      · have h3 : j = k + 1 := by omega
        rw [h3]
        exact (insert_run_wait K s B k hB hdiv hk1 hk2 hmax hst hb).2.2

/-- Witness for C6: the run from `secs = 86399` (`B = 86400`, `k = 1`) with
the reference constants. -/
theorem C6_insert_cycle_witness :
    (∀ j : Nat, 1 ≤ j → j ≤ 1 →
      (ticks refConsts stateIns (86400 - (1 : Nat)) j).time_state = SyncState.TIME_INS ∧
      (ticks refConsts stateIns (86400 - (1 : Nat)) j).ntp_next_leap_sec = 86400) ∧
    (ticks refConsts stateIns (86400 - (1 : Nat)) (1 + 1)).time_state = SyncState.TIME_OOP ∧
    (ticks refConsts stateIns (86400 - (1 : Nat)) (1 + 2)).time_state = SyncState.TIME_WAIT ∧
    (ticks refConsts stateIns (86400 - (1 : Nat)) (1 + 2)).ntp_next_leap_sec =
      refConsts.TIME_MAX ∧
    (∀ j : Nat, j < 1 + 2 →
      leapAt refConsts stateIns (86400 - (1 : Nat)) j = if j = 1 then -1 else 0) :=
  C6_insert_cycle refConsts stateIns 86400 1 (by decide) (by decide) (by decide) (by decide)
    (by decide) (by decide) (by decide)

/-! ## C7: after the leap-insert cycle -/

set_option maxRecDepth 100000 in
/-- C7, as stated, fails: with the reference constants, the run from state OK
with `STA_INS` set at `secs = 86399` reaches WAIT after three calls; the call
taken after that (at `secs = 86402`) leaves the machine in WAIT, not in OK. -/
theorem C7_counterexample :
    stateIns.time_state = SyncState.TIME_OK ∧
    stateIns.time_status &&& refConsts.STA_INS ≠ 0 ∧
    (ticks refConsts stateIns 86399 2).time_state = SyncState.TIME_OOP ∧
    (ticks refConsts stateIns 86399 3).time_state = SyncState.TIME_WAIT ∧
    (ticks refConsts stateIns 86399 4).time_state = SyncState.TIME_WAIT ∧
    (ticks refConsts stateIns 86399 4).time_state ≠ SyncState.TIME_OK := by
  decide

/-- C7, amended: in the run that starts from OK with `STA_INS` set and only
calls `second_overflow` once per second (C6), the call taken after the machine
reaches WAIT leaves it in WAIT, and so does every later call, because
`STA_INS` is still set: the sequence over k+1, 1, 1 calls ends
OOP -> WAIT -> WAIT. A call in state WAIT returns the machine to OK exactly
when both `STA_INS` and `STA_DEL` are clear. -/
theorem C7_insert_cycle_end (K : Consts) (s : TimeState) (B : Int) (k : Nat)
    (hB : 0 < B) (hdiv : B % 86400 = 0) (hk1 : 1 ≤ k) (hk2 : k ≤ 86400)
    (hmax : B + 1 ≤ LONG_MAX K)
    (hst : s.time_state = SyncState.TIME_OK) (hb : s.time_status &&& K.STA_INS ≠ 0) :
    (ticks K s (B - k) (k + 1)).time_state = SyncState.TIME_OOP ∧
    (ticks K s (B - k) (k + 2)).time_state = SyncState.TIME_WAIT ∧
    (ticks K s (B - k) (k + 3)).time_state = SyncState.TIME_WAIT ∧
    (∀ n : Nat, (ticks K s (B - k) (k + 2 + n)).time_state = SyncState.TIME_WAIT) ∧
    (∀ (t : TimeState) (secs : Int), t.time_state = SyncState.TIME_WAIT →
      ((second_overflow K t secs).1.time_state = SyncState.TIME_OK ↔
        t.time_status &&& K.STA_INS = 0 ∧ t.time_status &&& K.STA_DEL = 0)) := by
  refine ⟨(insert_run_oop K s B k hB hdiv hk1 hk2 hmax hst hb).1,
    (insert_run_wait K s B k hB hdiv hk1 hk2 hmax hst hb).1,
    insert_run_stays_wait K s B k hB hdiv hk1 hk2 hmax hst hb 1,
    insert_run_stays_wait K s B k hB hdiv hk1 hk2 hmax hst hb, ?_⟩
  intro t secs ht
  rw [(tick_wait K t secs ht).1]
  split_ifs with hc
  · simp [hc]
  · simp [hc]

/-- Witness for C7: the run from `secs = 86399` (`B = 86400`, `k = 1`). -/
theorem C7_insert_cycle_end_witness :
    (ticks refConsts stateIns (86400 - (1 : Nat)) (1 + 3)).time_state = SyncState.TIME_WAIT :=
  (C7_insert_cycle_end refConsts stateIns 86400 1 (by decide) (by decide) (by decide)
    (by decide) (by decide) (by decide) (by decide)).2.2.1

/-! ## C8: the leap-delete cycle -/

/-- C8: for every day boundary `B` (a positive multiple of 86400 that is a
`time_t`) and every `k` with `2 <= k <= 86400`, starting from state OK with
`STA_DEL` set and `STA_INS` clear and calling `second_overflow` at the
consecutive seconds `B-k, ..., B-1`: after the first call, and after every
call before the last, the state is DEL with `ntp_next_leap_sec = B-1`; the
call at `secs = B-1` (call number `k`) returns +1 and leaves the state WAIT
with `ntp_next_leap_sec = TIME_MAX` (never); every other call returns 0; and
the state is OOP after no call. -/
theorem C8_delete_cycle (K : Consts) (s : TimeState) (B : Int) (k : Nat)
    (hB : 0 < B) (hdiv : B % 86400 = 0) (hk1 : 2 ≤ k) (hk2 : k ≤ 86400)
    (hmax : B ≤ LONG_MAX K)
    (hst : s.time_state = SyncState.TIME_OK) (hb : s.time_status &&& K.STA_DEL ≠ 0)
    (hins : s.time_status &&& K.STA_INS = 0) :
    (∀ j : Nat, 1 ≤ j → j < k →
      (ticks K s (B - k) j).time_state = SyncState.TIME_DEL ∧
      (ticks K s (B - k) j).ntp_next_leap_sec = B - 1) ∧
    (ticks K s (B - k) k).time_state = SyncState.TIME_WAIT ∧
    (ticks K s (B - k) k).ntp_next_leap_sec = K.TIME_MAX ∧
    (∀ j : Nat, j < k → leapAt K s (B - k) j = if j + 1 = k then 1 else 0) ∧
    (∀ j : Nat, j ≤ k → (ticks K s (B - k) j).time_state ≠ SyncState.TIME_OOP) := by
  have hdel : ∀ j : Nat, 1 ≤ j → j < k →
      (ticks K s (B - k) j).time_state = SyncState.TIME_DEL ∧
      (ticks K s (B - k) j).ntp_next_leap_sec = B - 1 := by
    intro j hj1 hj2
    obtain ⟨i, rfl⟩ : ∃ i, j = i + 1 := ⟨j - 1, by omega⟩
    exact delete_run_del K s B k hB hdiv hk1 hk2 hmax hst hb hins i hj2
  obtain ⟨w1, w2, w3⟩ := delete_run_wait K s B k hB hdiv hk1 hk2 hmax hst hb hins
  refine ⟨hdel, w1, w2, ?_, ?_⟩
  · intro j hj
    by_cases h1 : j + 1 = k
    · rw [if_pos h1]
      exact w3 j h1
    · rw [if_neg h1]
      exact delete_run_leap_before K s B k hB hdiv hk1 hk2 hmax hst hb hins j (by omega)
  · intro j hj
    rcases Nat.eq_zero_or_pos j with h0 | h0
    · subst h0
      show s.time_state ≠ SyncState.TIME_OOP
      rw [hst]
      decide
    · by_cases h1 : j < k
      · rw [(hdel j h0 h1).1]
        decide
      · have h2 : j = k := by omega
        rw [h2, w1]
        decide

/-- Witness for C8: the run from `secs = 86398` (`B = 86400`, `k = 2`) with
the reference constants. -/
theorem C8_delete_cycle_witness :
    (ticks refConsts stateDel (86400 - (2 : Nat)) 2).time_state = SyncState.TIME_WAIT ∧
    (ticks refConsts stateDel (86400 - (2 : Nat)) 2).ntp_next_leap_sec = refConsts.TIME_MAX :=
  ⟨(C8_delete_cycle refConsts stateDel 86400 2 (by decide) (by decide) (by decide)
    (by decide) (by decide) (by decide) (by decide) (by decide)).2.1,
   (C8_delete_cycle refConsts stateDel 86400 2 (by decide) (by decide) (by decide)
    (by decide) (by decide) (by decide) (by decide) (by decide)).2.2.1⟩

/-! ## C9: the scheduled leap second -/

/-- C9, as stated ("for every secs >= 0"), fails at the upper end of `time_t`:
with the reference constants (64-bit `time_t`), in state OK with `STA_INS` set
at `secs = 9223372036854720000` (the last multiple of 86400 below `2^63`), the
next midnight is not a `time_t`; `second_overflow` stores
`-9223372036854745216`, which is neither a multiple of 86400 nor greater than
`secs`. -/
theorem C9_counterexample :
    (0 : Int) ≤ 9223372036854720000 ∧ (9223372036854720000 : Int) ≤ LONG_MAX refConsts ∧
    stateIns.time_state = SyncState.TIME_OK ∧
    stateIns.time_status &&& refConsts.STA_INS ≠ 0 ∧
    (second_overflow refConsts stateIns 9223372036854720000).1.ntp_next_leap_sec =
      -9223372036854745216 ∧
    (-9223372036854745216 : Int) % 86400 ≠ 0 ∧
    ¬ ((9223372036854720000 : Int) <
      (second_overflow refConsts stateIns 9223372036854720000).1.ntp_next_leap_sec) := by
  decide

/-- C9, amended: for every secs with `0 <= secs` and `secs + 86400 <= LONG_MAX`
(the largest `time_t`), a `second_overflow(secs)` call made in state OK with
`STA_INS` set schedules `ntp_next_leap_sec` exactly at the next midnight
boundary: the result is a multiple of 86400 with
`secs < ntp_next_leap_sec <= secs + 86400`. -/
theorem C9_next_midnight (K : Consts) (s : TimeState) (secs : Int)
    (h0 : 0 ≤ secs) (h1 : secs + 86400 ≤ LONG_MAX K)
    (hst : s.time_state = SyncState.TIME_OK) (hb : s.time_status &&& K.STA_INS ≠ 0) :
    (second_overflow K s secs).1.time_state = SyncState.TIME_INS ∧
    (second_overflow K s secs).1.ntp_next_leap_sec % 86400 = 0 ∧
    secs < (second_overflow K s secs).1.ntp_next_leap_sec ∧
    (second_overflow K s secs).1.ntp_next_leap_sec ≤ secs + 86400 := by
  obtain ⟨a1, a2, -⟩ := tick_ok_ins K s secs hst hb
  have hlt := Int.emod_nonneg secs (show (86400 : Int) ≠ 0 by norm_num)
  rw [a2, next_leap_ins K secs h0 (by omega)]
  refine ⟨a1, ?_, ?_, ?_⟩ <;> omega

/-- Witness for C9: at `secs = 86399` the scheduled second is 86400. -/
theorem C9_next_midnight_witness :
    (second_overflow refConsts stateIns 86399).1.ntp_next_leap_sec = 86400 ∧
    (second_overflow refConsts stateIns 86399).1.ntp_next_leap_sec % 86400 = 0 :=
  ⟨by decide,
   (C9_next_midnight refConsts stateIns 86399 (by decide) (by decide) (by decide)
    (by decide)).2.1⟩

/-! ## C10: the frequency bound -/

/-- C10: if `|time_freq| <= MAXFREQ_SCALED` holds before, it holds after
every `ntp_update_offset(offset)` call (every offset, status and clock
reading) and after every `process_adjtimex_modes` call (every request, in
particular those with `ADJ_FREQUENCY` and/or `ADJ_OFFSET` set, and every
freq); so, `MAXFREQ_SCALED` being non-negative, it holds after every sequence
of such updates starting from the initial state. -/
theorem C10_frequency_bound (K : Consts) (hM : 0 ≤ K.MAXFREQ_SCALED) :
    (∀ (s : TimeState) (offset now : Int), |s.time_freq| ≤ K.MAXFREQ_SCALED →
      |(ntp_update_offset K s offset now).time_freq| ≤ K.MAXFREQ_SCALED) ∧
    (∀ (s : TimeState) (txc : Timex) (now time_tai : Int),
      |s.time_freq| ≤ K.MAXFREQ_SCALED →
      |(process_adjtimex_modes K s txc now time_tai).1.time_freq| ≤ K.MAXFREQ_SCALED) ∧
    (∀ us : List Update,
      |(applyUpdates K (initialState K) us).time_freq| ≤ K.MAXFREQ_SCALED) := by
  refine ⟨fun s offset now h => ntp_update_offset_freq_bound K s offset now h,
    fun s txc now tai h => process_adjtimex_modes_freq_bound K s txc now tai h, ?_⟩
  have hinit : |(initialState K).time_freq| ≤ K.MAXFREQ_SCALED := by
    show |(0 : Int)| ≤ K.MAXFREQ_SCALED
    simpa using hM
  have hgen : ∀ (us : List Update) (s : TimeState), |s.time_freq| ≤ K.MAXFREQ_SCALED →
      |(applyUpdates K s us).time_freq| ≤ K.MAXFREQ_SCALED := by
    intro us
    induction us with
    | nil => intro s h; exact h
    | cons u us ih =>
      intro s h
      show |(applyUpdates K (applyUpdate K s u) us).time_freq| ≤ K.MAXFREQ_SCALED
      apply ih
      cases u with
      | update_offset offset now => exact ntp_update_offset_freq_bound K s offset now h
      | adjtimex_modes txc now => exact process_adjtimex_modes_freq_bound K s txc now 0 h
  intro us
  exact hgen us _ hinit

/-- Witness for C10: with the reference constants, after a PLL status request
followed by an offset update of one second taken 5000 s later and a frequency
request at the largest accepted `freq`, the frequency offset is within the
bound. -/
theorem C10_frequency_bound_witness :
    |(applyUpdates refConsts (initialState refConsts)
      [Update.adjtimex_modes { txcZero with modes := 0x0010, status := 0x0001 } 1000,
       Update.update_offset 1000000 6000,
       Update.adjtimex_modes { txcZero with modes := 0x0002, freq := 140737488355 } 6001]
      ).time_freq| ≤ refConsts.MAXFREQ_SCALED :=
  (C10_frequency_bound refConsts (by decide)).2.2 _

/-! ## C11: the error bound -/

/-- C11: for every state with `time_maxerror <= NTP_PHASE_LIMIT` (a `long`),
after `second_overflow` the new `time_maxerror` equals
`min(old + MAXFREQ/NSEC_PER_USEC, NTP_PHASE_LIMIT)`; hence it is at least the
old value and never exceeds `NTP_PHASE_LIMIT`, and along every run of ticks
`time_maxerror` is non-decreasing and stays below the limit. The constants are
such that the per-second increment is non-negative and `NTP_PHASE_LIMIT` plus
the increment is a `long`. -/
theorem C11_error_bound (K : Consts) (s : TimeState) (secs : Int)
    (hw : 0 < K.BITS_PER_LONG)
    (hinc : 0 ≤ Int.tdiv K.MAXFREQ K.NSEC_PER_USEC)
    (hfit : K.NTP_PHASE_LIMIT + Int.tdiv K.MAXFREQ K.NSEC_PER_USEC ≤ LONG_MAX K)
    (hlow : -(LONG_MAX K) - 1 ≤ s.time_maxerror)
    (h : s.time_maxerror ≤ K.NTP_PHASE_LIMIT) :
    (second_overflow K s secs).1.time_maxerror =
      min (s.time_maxerror + Int.tdiv K.MAXFREQ K.NSEC_PER_USEC) K.NTP_PHASE_LIMIT ∧
    s.time_maxerror ≤ (second_overflow K s secs).1.time_maxerror ∧
    (second_overflow K s secs).1.time_maxerror ≤ K.NTP_PHASE_LIMIT ∧
    (∀ n : Nat,
      (ticks K s secs n).time_maxerror ≤ (ticks K s secs (n + 1)).time_maxerror ∧
      (ticks K s secs (n + 1)).time_maxerror ≤ K.NTP_PHASE_LIMIT) := by
  have step : ∀ (t : TimeState) (x : Int), -(LONG_MAX K) - 1 ≤ t.time_maxerror →
      t.time_maxerror ≤ K.NTP_PHASE_LIMIT →
      (second_overflow K t x).1.time_maxerror =
        min (t.time_maxerror + Int.tdiv K.MAXFREQ K.NSEC_PER_USEC) K.NTP_PHASE_LIMIT ∧
      t.time_maxerror ≤ (second_overflow K t x).1.time_maxerror ∧
      (second_overflow K t x).1.time_maxerror ≤ K.NTP_PHASE_LIMIT := by
    intro t x ht1 ht2
    have e := second_overflow_maxerror_min K t x hw hinc hfit ht1 ht2
    refine ⟨e, ?_, ?_⟩
    · rw [e]
      exact le_min (by omega) ht2
    · rw [e]
      exact min_le_right _ _
  have inv : ∀ n : Nat, -(LONG_MAX K) - 1 ≤ (ticks K s secs n).time_maxerror ∧
      (ticks K s secs n).time_maxerror ≤ K.NTP_PHASE_LIMIT := by
    intro n
    induction n with
    | zero => exact ⟨hlow, h⟩
    | succ n ih =>
      rw [ticks_succ]
      obtain ⟨-, a2, a3⟩ := step (ticks K s secs n) (secs + n) ih.1 ih.2
      exact ⟨le_trans ih.1 a2, a3⟩
  obtain ⟨a1, a2, a3⟩ := step s secs hlow h
  refine ⟨a1, a2, a3, ?_⟩
  intro n
  obtain ⟨-, b2, b3⟩ := step (ticks K s secs n) (secs + n) (inv n).1 (inv n).2
  rw [ticks_succ]
  exact ⟨b2, b3⟩

/-- Witness for C11: a tick from `time_maxerror = 15999000` with the
reference constants gives 15999500. -/
theorem C11_error_bound_witness :
    (second_overflow refConsts { initialState refConsts with time_maxerror := 15999000 }
      1000).1.time_maxerror =
      min (15999000 + Int.tdiv refConsts.MAXFREQ refConsts.NSEC_PER_USEC)
        refConsts.NTP_PHASE_LIMIT :=
  (C11_error_bound refConsts { initialState refConsts with time_maxerror := 15999000 } 1000
    (by decide) (by decide) (by decide) (by decide) (by decide)).1

/-! ## C12: the limit and `STA_UNSYNC` -/

/-- C12, as stated, fails: with the reference constants, from
`time_maxerror = 15999500 <= NTP_PHASE_LIMIT` and a status without
`STA_UNSYNC`, one `second_overflow` call leaves `time_maxerror` equal to
`NTP_PHASE_LIMIT = 16000000` (15999500 + 500 does not exceed the limit) and
`STA_UNSYNC` clear. -/
theorem C12_counterexample :
    (15999500 : Int) ≤ refConsts.NTP_PHASE_LIMIT ∧
    (second_overflow refConsts
      { initialState refConsts with time_maxerror := 15999500, time_status := 0 }
      1000).1.time_maxerror = refConsts.NTP_PHASE_LIMIT ∧
    (second_overflow refConsts
      { initialState refConsts with time_maxerror := 15999500, time_status := 0 }
      1000).1.time_status &&& refConsts.STA_UNSYNC = 0 := by
  decide

/-- C12, amended: for every state with `time_maxerror <= NTP_PHASE_LIMIT`, a
`second_overflow` call in which `time_maxerror + MAXFREQ/NSEC_PER_USEC`
exceeds `NTP_PHASE_LIMIT` leaves `time_maxerror = NTP_PHASE_LIMIT` and the
`STA_UNSYNC` bit set after that same call; a call in which the sum does not
exceed the limit (it may be equal to it) stores the sum and leaves
`time_status` as it was. -/
theorem C12_unsync_on_excess (K : Consts) (s : TimeState) (secs : Int)
    (hw : 0 < K.BITS_PER_LONG)
    (hinc : 0 ≤ Int.tdiv K.MAXFREQ K.NSEC_PER_USEC)
    (hfit : K.NTP_PHASE_LIMIT + Int.tdiv K.MAXFREQ K.NSEC_PER_USEC ≤ LONG_MAX K)
    (hlow : -(LONG_MAX K) - 1 ≤ s.time_maxerror)
    (h : s.time_maxerror ≤ K.NTP_PHASE_LIMIT) :
    if K.NTP_PHASE_LIMIT < s.time_maxerror + Int.tdiv K.MAXFREQ K.NSEC_PER_USEC then
      (second_overflow K s secs).1.time_maxerror = K.NTP_PHASE_LIMIT ∧
      (second_overflow K s secs).1.time_status = s.time_status ||| K.STA_UNSYNC ∧
      (second_overflow K s secs).1.time_status &&& K.STA_UNSYNC = K.STA_UNSYNC
    else
      (second_overflow K s secs).1.time_maxerror =
        s.time_maxerror + Int.tdiv K.MAXFREQ K.NSEC_PER_USEC ∧
      (second_overflow K s secs).1.time_status = s.time_status := by
  obtain ⟨e1, e2⟩ := second_overflow_maxerror K s secs
  rw [wrapLong_eq_of_bits K _ hw (by omega) (by omega)] at e1 e2
  split_ifs with hc
  · rw [if_pos hc] at e1 e2
    refine ⟨e1, e2, ?_⟩
    rw [e2]
    exact lor_land_self _ _
  · rw [if_neg hc] at e1 e2
    exact ⟨e1, e2⟩

/-- Witness for C12: from `time_maxerror = NTP_PHASE_LIMIT` and an empty
status, the sum exceeds the limit and the call sets `STA_UNSYNC`. -/
theorem C12_unsync_on_excess_witness :
    if refConsts.NTP_PHASE_LIMIT <
        ({ initialState refConsts with time_status := 0 } : TimeState).time_maxerror +
          Int.tdiv refConsts.MAXFREQ refConsts.NSEC_PER_USEC then
      (second_overflow refConsts { initialState refConsts with time_status := 0 }
        1000).1.time_maxerror = refConsts.NTP_PHASE_LIMIT ∧
      (second_overflow refConsts { initialState refConsts with time_status := 0 }
        1000).1.time_status =
        ({ initialState refConsts with time_status := 0 } : TimeState).time_status |||
          refConsts.STA_UNSYNC ∧
      (second_overflow refConsts { initialState refConsts with time_status := 0 }
        1000).1.time_status &&& refConsts.STA_UNSYNC = refConsts.STA_UNSYNC
    else
      (second_overflow refConsts { initialState refConsts with time_status := 0 }
        1000).1.time_maxerror =
        ({ initialState refConsts with time_status := 0 } : TimeState).time_maxerror +
          Int.tdiv refConsts.MAXFREQ refConsts.NSEC_PER_USEC ∧
      (second_overflow refConsts { initialState refConsts with time_status := 0 }
        1000).1.time_status =
        ({ initialState refConsts with time_status := 0 } : TimeState).time_status :=
  C12_unsync_on_excess refConsts { initialState refConsts with time_status := 0 } 1000
    (by decide) (by decide) (by decide) (by decide) (by decide)

/-! ## C13: the tick slew bound -/

/-- C13: for every value `a` of `time_adjust` (a `long`) before
`second_overflow` and `a'` after it: `|a - a'| <= MAX_TICKADJ`, `|a'| <= |a|`,
`a'` never has the opposite sign of `a` (`a >= 0` gives `a' >= 0`, `a <= 0`
gives `a' <= 0`), and `|a| <= MAX_TICKADJ` (in particular `a = 0`) gives
`a' = 0`. -/
theorem C13_slew_bound (K : Consts) (s : TimeState) (secs : Int)
    (hw : 0 < K.BITS_PER_LONG)
    (hlo : -(LONG_MAX K) - 1 ≤ s.time_adjust) (hhi : s.time_adjust ≤ LONG_MAX K) :
    |s.time_adjust - (second_overflow K s secs).1.time_adjust| ≤ MAX_TICKADJ ∧
    |(second_overflow K s secs).1.time_adjust| ≤ |s.time_adjust| ∧
    (0 ≤ s.time_adjust → 0 ≤ (second_overflow K s secs).1.time_adjust) ∧
    (s.time_adjust ≤ 0 → (second_overflow K s secs).1.time_adjust ≤ 0) ∧
    (s.time_adjust = 0 → (second_overflow K s secs).1.time_adjust = 0) ∧
    (|s.time_adjust| ≤ MAX_TICKADJ → (second_overflow K s secs).1.time_adjust = 0) := by
  have e := second_overflow_time_adjust K s secs
  unfold MAX_TICKADJ at e ⊢
  by_cases h1 : s.time_adjust > 500
  · rw [if_pos h1, wrapLong_eq_of_bits K _ hw (by omega) (by omega)] at e
    rw [e]
    refine ⟨?_, ?_, ?_, ?_, ?_, ?_⟩
    · rw [abs_le]; constructor <;> omega
    · rw [abs_of_pos (by omega : (0 : Int) < s.time_adjust - 500),
        abs_of_pos (by omega : (0 : Int) < s.time_adjust)]
      omega
    · intro _; omega
    · intro h; omega
    · intro h; omega
    · intro h
      rw [abs_le] at h
      omega
  · rw [if_neg h1] at e
    by_cases h2 : s.time_adjust < -500
    · rw [if_pos h2, wrapLong_eq_of_bits K _ hw (by omega) (by omega)] at e
      rw [e]
      refine ⟨?_, ?_, ?_, ?_, ?_, ?_⟩
      · rw [abs_le]; constructor <;> omega
      · rw [abs_of_neg (by omega : s.time_adjust + 500 < 0),
          abs_of_neg (by omega : s.time_adjust < 0)]
        omega
      · intro h; omega
      · intro _; omega
      · intro h; omega
      · intro h
        rw [abs_le] at h
        omega
    · rw [if_neg h2] at e
      rw [e]
      refine ⟨?_, ?_, ?_, ?_, ?_, ?_⟩
      · rw [abs_le]; constructor <;> omega
      · simp
      · intro _; exact le_refl _
      · intro _; exact le_refl _
      · intro _; rfl
      · intro _; rfl

/-- Witness for C13: with the reference constants, `time_adjust = 1200`
becomes 700. -/
theorem C13_slew_bound_witness :
    (second_overflow refConsts { initialState refConsts with time_adjust := 1200 }
      1000).1.time_adjust = 700 ∧
    |(1200 : Int) - (second_overflow refConsts
      { initialState refConsts with time_adjust := 1200 } 1000).1.time_adjust| ≤ MAX_TICKADJ :=
  ⟨by decide,
   (C13_slew_bound refConsts { initialState refConsts with time_adjust := 1200 } 1000
    (by decide) (by decide) (by decide)).1⟩

/-! ## C14: recomputing the frequency twice -/

/-- C14: `ntp_update_frequency` is idempotent: for every state, applying it
twice with no state change in between yields the same state as applying it
once; so `tick_length_base` is the same, and the second application leaves
`tick_length` and `tick_nsec` unchanged. -/
theorem C14_update_frequency_idempotent (K : Consts) (s : TimeState) :
    ntp_update_frequency K (ntp_update_frequency K s) = ntp_update_frequency K s ∧
    (ntp_update_frequency K (ntp_update_frequency K s)).tick_length_base =
      (ntp_update_frequency K s).tick_length_base ∧
    (ntp_update_frequency K (ntp_update_frequency K s)).tick_length =
      (ntp_update_frequency K s).tick_length ∧
    (ntp_update_frequency K (ntp_update_frequency K s)).tick_nsec =
      (ntp_update_frequency K s).tick_nsec := by
  have e : ntp_update_frequency K (ntp_update_frequency K s) = ntp_update_frequency K s := by
    unfold ntp_update_frequency
    simp only [wrapU, sub_self, add_zero, Int.emod_emod]
  exact ⟨e, by rw [e], by rw [e], by rw [e]⟩

/-! ## C15: the read-only status bits -/

/-- C15, as stated, fails: with the reference constants (`STA_RONLY = 0xff00`
contains `STA_NANO = 0x2000`), the request with modes `ADJ_NANO` (0x2000)
applied to the initial state turns `time_status & STA_RONLY` from 0 into
0x2000; and the request with modes `ADJ_STATUS` and status 0, applied to a
state whose status is `STA_PLL | STA_NANO` (0x2001), switches the PLL off and
turns `time_status & STA_RONLY` from 0x2000 into 0. -/
theorem C15_counterexample :
    (initialState refConsts).time_status &&& refConsts.STA_RONLY = 0 ∧
    (process_adjtimex_modes refConsts (initialState refConsts)
      { txcZero with modes := 0x2000 } 0 0).1.time_status &&& refConsts.STA_RONLY = 0x2000 ∧
    ({ initialState refConsts with time_status := 0x2001 } : TimeState).time_status &&&
      refConsts.STA_RONLY = 0x2000 ∧
    (process_adjtimex_modes refConsts { initialState refConsts with time_status := 0x2001 }
      { txcZero with modes := 0x0010 } 0 0).1.time_status &&& refConsts.STA_RONLY = 0 := by
  decide

/-- C15, amended: the read-only bits are never taken from the request's
status word. For every state and every request that does not switch the PLL
off (not: `STA_PLL` set in `time_status` and clear in `txc->status`),
`process_adj_status` leaves `time_status & STA_RONLY` unchanged whatever
`txc->status` is; and so does `process_adjtimex_modes` when, in addition, the
modes have none of `ADJ_NANO`, `ADJ_MICRO`, `ADJ_OFFSET` (which set or clear
`STA_NANO` and recompute `STA_MODE`). `STA_RONLY` is an `int` bit mask. -/
theorem C15_ronly_preserved (K : Consts) (s : TimeState) (txc : Timex) (now time_tai : Int)
    (hR : K.STA_RONLY < 2 ^ 32)
    (hP : ¬ (s.time_status &&& K.STA_PLL ≠ 0 ∧ txc.status &&& K.STA_PLL = 0))
    (hN : txc.modes &&& K.ADJ_NANO = 0) (hM : txc.modes &&& K.ADJ_MICRO = 0)
    (hO : txc.modes &&& K.ADJ_OFFSET = 0) :
    (process_adj_status K s txc now).time_status &&& K.STA_RONLY =
      s.time_status &&& K.STA_RONLY ∧
    (process_adjtimex_modes K s txc now time_tai).1.time_status &&& K.STA_RONLY =
      s.time_status &&& K.STA_RONLY := by
  have e1 : (process_adj_status K s txc now).time_status &&& K.STA_RONLY =
      s.time_status &&& K.STA_RONLY := by
    rw [process_adj_status_status, if_neg hP]
    exact ronly_mask _ _ _ hR
  refine ⟨e1, ?_⟩
  rw [process_adjtimex_modes_status K s txc now time_tai hN hM hO]
  split_ifs
  · exact e1
  · rfl

/-- Witness for C15: a status request that keeps the PLL on and tries to set
every bit (`status = 0xffff`) on a state with status `STA_PLL`. -/
theorem C15_ronly_preserved_witness :
    (process_adjtimex_modes refConsts { initialState refConsts with time_status := 0x0001 }
      { txcZero with modes := 0x0010, status := 0xffff } 0 0).1.time_status &&&
        refConsts.STA_RONLY =
      ({ initialState refConsts with time_status := 0x0001 } : TimeState).time_status &&&
        refConsts.STA_RONLY :=
  (C15_ronly_preserved refConsts { initialState refConsts with time_status := 0x0001 }
    { txcZero with modes := 0x0010, status := 0xffff } 0 0
    (by decide) (by decide) (by decide) (by decide) (by decide)).2

/-! ## C16 and C17: `ntp_clear` -/

/-- C16, as stated, fails: with the reference constants, `ntp_clear` on a
state whose status is `STA_PLL` (0x0001) leaves the status
`STA_PLL | STA_UNSYNC` (0x0041), not `STA_UNSYNC` (0x0040) alone. -/
theorem C16_counterexample :
    (ntp_clear refConsts { initialState refConsts with time_status := 0x0001 }).time_status =
      0x0041 ∧
    (ntp_clear refConsts { initialState refConsts with time_status := 0x0001 }).time_status ≠
      refConsts.STA_UNSYNC := by
  decide

/-- C16, amended: for every prior state, after `ntp_clear` the status flags
are the prior flags with `STA_UNSYNC` added (`time_status | STA_UNSYNC`): the
`STA_UNSYNC` bit is set and every other status bit is as it was before. -/
theorem C16_clear_status (K : Consts) (s : TimeState) :
    (ntp_clear K s).time_status = s.time_status ||| K.STA_UNSYNC ∧
    (ntp_clear K s).time_status &&& K.STA_UNSYNC = K.STA_UNSYNC := by
  have e : (ntp_clear K s).time_status = s.time_status ||| K.STA_UNSYNC := rfl
  refine ⟨e, ?_⟩
  rw [e]
  exact lor_land_self _ _

/-- C17: for every prior state, after `ntp_clear`: `time_adjust = 0`,
`time_offset = 0`, `time_maxerror = time_esterror = NTP_PHASE_LIMIT`,
`ntp_next_leap_sec = TIME_MAX` (never), the `STA_UNSYNC` bit is set,
`tick_length_base` is the value recomputed by `ntp_update_frequency` from the
prior (tick_usec, ntp_tick_adj, time_freq), which `ntp_clear` leaves
unchanged, and `tick_length = tick_length_base`. -/
theorem C17_clear_fields (K : Consts) (s : TimeState) :
    (ntp_clear K s).time_adjust = 0 ∧
    (ntp_clear K s).time_offset = 0 ∧
    (ntp_clear K s).time_maxerror = K.NTP_PHASE_LIMIT ∧
    (ntp_clear K s).time_esterror = K.NTP_PHASE_LIMIT ∧
    (ntp_clear K s).ntp_next_leap_sec = K.TIME_MAX ∧
    (ntp_clear K s).time_status &&& K.STA_UNSYNC = K.STA_UNSYNC ∧
    (ntp_clear K s).tick_length_base = (ntp_update_frequency K s).tick_length_base ∧
    (ntp_clear K s).tick_length = (ntp_clear K s).tick_length_base ∧
    (ntp_clear K s).tick_usec = s.tick_usec ∧
    (ntp_clear K s).ntp_tick_adj = s.ntp_tick_adj ∧
    (ntp_clear K s).time_freq = s.time_freq := by
  refine ⟨rfl, rfl, rfl, rfl, rfl, ?_, rfl, rfl, rfl, rfl, rfl⟩
  show (s.time_status ||| K.STA_UNSYNC) &&& K.STA_UNSYNC = K.STA_UNSYNC
  exact lor_land_self _ _

/-! ## C18: requests without `ADJ_ADJTIME` -/

/-- C18: for every request without the `ADJ_ADJTIME` bit, `ntp_validate_timex`
returns `-EPERM` when `modes` is non-zero and 0 when `modes` is zero, whatever
the other fields are; so a request that sets `ADJ_TICK`, `ADJ_FREQUENCY`,
`ADJ_OFFSET`, `ADJ_STATUS` or any other mode bit without `ADJ_ADJTIME` always
gets `-EPERM`. -/
theorem C18_no_adjtime (K : Consts) (s : TimeState) (txc : Timex)
    (hA : txc.modes &&& K.ADJ_ADJTIME = 0) :
    (ntp_validate_timex K s txc).2 = if txc.modes = 0 then 0 else -K.EPERM := by
  unfold ntp_validate_timex
  by_cases hm : txc.modes = 0
  · simp [hm]
  · simp [hA, hm]

/-- Witness for C18: `ADJ_OFFSET | ADJ_STATUS` (0x0011) gives `-EPERM`. -/
theorem C18_no_adjtime_witness :
    (ntp_validate_timex refConsts (initialState refConsts)
      { txcZero with modes := 0x0011 }).2 = -1 :=
  C18_no_adjtime refConsts (initialState refConsts) { txcZero with modes := 0x0011 }
    (by decide)

/-! ## C19 and C20: `ntp_update_offset` -/

/-- C19: `ntp_update_offset` is a no-op when the PLL flag is clear: for every
state with `STA_PLL` not set in `time_status`, every offset and every clock
reading, the state is returned unchanged (time_status, time_freq, time_offset,
time_reftime and every other field). -/
theorem C19_update_offset_noop (K : Consts) (s : TimeState) (offset now : Int)
    (hP : s.time_status &&& K.STA_PLL = 0) :
    ntp_update_offset K s offset now = s := by
  unfold ntp_update_offset
  rw [if_pos hP]

/-- Witness for C19: the initial state (status `STA_UNSYNC`) has the PLL flag
clear. -/
theorem C19_update_offset_noop_witness :
    ntp_update_offset refConsts (initialState refConsts) 1000000 5000 =
      initialState refConsts :=
  C19_update_offset_noop refConsts (initialState refConsts) 1000000 5000 (by decide)

/-- C20: for every state with `STA_PLL` set and every offset, after
`ntp_update_offset(offset)` the phase offset is
`time_offset = (c << NTP_SCALE_SHIFT) / NTP_INTERVAL_FREQ` as an exact integer
expression (no step of the computation leaves its machine type), where
`c = clamp(offset, -MAXPHASE, MAXPHASE)` if `STA_NANO` is set and
`c = clamp(clamp(offset, -USEC_PER_SEC, USEC_PER_SEC) * NSEC_PER_USEC,
-MAXPHASE, MAXPHASE)` otherwise; hence
`|time_offset| <= (MAXPHASE << NTP_SCALE_SHIFT) / NTP_INTERVAL_FREQ`. The
constants are such that `USEC_PER_SEC * NSEC_PER_USEC` is a `long`,
`MAXPHASE << NTP_SCALE_SHIFT` is an `s64` and `NTP_INTERVAL_FREQ` a positive
`s32`. -/
theorem C20_phase_offset (K : Consts) (s : TimeState) (offset now : Int)
    (hw : 0 < K.BITS_PER_LONG)
    (hU : 0 ≤ K.USEC_PER_SEC) (hN : 0 ≤ K.NSEC_PER_USEC)
    (hUN : K.USEC_PER_SEC * K.NSEC_PER_USEC ≤ LONG_MAX K)
    (hP0 : 0 ≤ K.MAXPHASE) (hP1 : K.MAXPHASE * 2 ^ K.NTP_SCALE_SHIFT < 2 ^ 63)
    (hF0 : 0 < K.NTP_INTERVAL_FREQ) (hF1 : K.NTP_INTERVAL_FREQ < 2 ^ 31)
    (hPLL : s.time_status &&& K.STA_PLL ≠ 0) :
    (ntp_update_offset K s offset now).time_offset =
      Int.tdiv ((if s.time_status &&& K.STA_NANO ≠ 0 then
          clamp offset (-K.MAXPHASE) K.MAXPHASE
        else clamp (clamp offset (-K.USEC_PER_SEC) K.USEC_PER_SEC * K.NSEC_PER_USEC)
          (-K.MAXPHASE) K.MAXPHASE) * 2 ^ K.NTP_SCALE_SHIFT) K.NTP_INTERVAL_FREQ ∧
    |(ntp_update_offset K s offset now).time_offset| ≤
      Int.tdiv (K.MAXPHASE * 2 ^ K.NTP_SCALE_SHIFT) K.NTP_INTERVAL_FREQ := by
  have hpow : (0 : Int) ≤ 2 ^ K.NTP_SCALE_SHIFT := by positivity
  -- the microsecond conversion stays a long
  obtain ⟨u1, u2⟩ := clamp_bounds offset (-K.USEC_PER_SEC) K.USEC_PER_SEC (by omega)
  have hmul1 : clamp offset (-K.USEC_PER_SEC) K.USEC_PER_SEC * K.NSEC_PER_USEC ≤
      K.USEC_PER_SEC * K.NSEC_PER_USEC := mul_le_mul_of_nonneg_right u2 hN
  have hmul2 : -K.USEC_PER_SEC * K.NSEC_PER_USEC ≤
      clamp offset (-K.USEC_PER_SEC) K.USEC_PER_SEC * K.NSEC_PER_USEC :=
    mul_le_mul_of_nonneg_right u1 hN
  have hUN0 : 0 ≤ K.USEC_PER_SEC * K.NSEC_PER_USEC := mul_nonneg hU hN
  have hwrap : wrapLong K (clamp offset (-K.USEC_PER_SEC) K.USEC_PER_SEC * K.NSEC_PER_USEC) =
      clamp offset (-K.USEC_PER_SEC) K.USEC_PER_SEC * K.NSEC_PER_USEC := by
    apply wrapLong_eq_of_bits K _ hw
    · rw [neg_mul] at hmul2
      omega
    · omega
  -- the clamped sample, as the code computes it
  have hc : clamp (if s.time_status &&& K.STA_NANO = 0 then
        wrapLong K (clamp offset (-K.USEC_PER_SEC) K.USEC_PER_SEC * K.NSEC_PER_USEC)
        else offset) (-K.MAXPHASE) K.MAXPHASE =
      (if s.time_status &&& K.STA_NANO ≠ 0 then clamp offset (-K.MAXPHASE) K.MAXPHASE
        else clamp (clamp offset (-K.USEC_PER_SEC) K.USEC_PER_SEC * K.NSEC_PER_USEC)
          (-K.MAXPHASE) K.MAXPHASE) := by
    by_cases hn : s.time_status &&& K.STA_NANO = 0
    · rw [if_pos hn, if_neg (not_not.mpr hn), hwrap]
    · rw [if_neg hn, if_pos hn]
  rw [ntp_update_offset_time_offset K s offset now hPLL, hc]
  generalize (if s.time_status &&& K.STA_NANO ≠ 0 then clamp offset (-K.MAXPHASE) K.MAXPHASE
    else clamp (clamp offset (-K.USEC_PER_SEC) K.USEC_PER_SEC * K.NSEC_PER_USEC)
      (-K.MAXPHASE) K.MAXPHASE) = c at hc ⊢
  have hcb : -K.MAXPHASE ≤ c ∧ c ≤ K.MAXPHASE := by
    rw [← hc]
    exact clamp_bounds _ _ _ (by omega)
  have hs1 : c * 2 ^ K.NTP_SCALE_SHIFT ≤ K.MAXPHASE * 2 ^ K.NTP_SCALE_SHIFT :=
    mul_le_mul_of_nonneg_right hcb.2 hpow
  have hs2 : -(K.MAXPHASE * 2 ^ K.NTP_SCALE_SHIFT) ≤ c * 2 ^ K.NTP_SCALE_SHIFT := by
    have := mul_le_mul_of_nonneg_right hcb.1 hpow
    rw [neg_mul] at this
    exact this
  have hshl : shl64 c K.NTP_SCALE_SHIFT = c * 2 ^ K.NTP_SCALE_SHIFT := by
    unfold shl64
    apply wrapS_eq_self 64 _ (by norm_num)
    · norm_num
      omega
    · norm_num
      omega
  have hF : wrapS 32 K.NTP_INTERVAL_FREQ = K.NTP_INTERVAL_FREQ := by
    apply wrapS_eq_self 32 _ (by norm_num)
    · norm_num
      omega
    · norm_num
      omega
  obtain ⟨b1, b2⟩ := tdiv_bound (c * 2 ^ K.NTP_SCALE_SHIFT)
    (K.MAXPHASE * 2 ^ K.NTP_SCALE_SHIFT) K.NTP_INTERVAL_FREQ hF0 hs2 hs1
  have hA0 : 0 ≤ K.MAXPHASE * 2 ^ K.NTP_SCALE_SHIFT := mul_nonneg hP0 hpow
  have hAF : Int.tdiv (K.MAXPHASE * 2 ^ K.NTP_SCALE_SHIFT) K.NTP_INTERVAL_FREQ ≤
      K.MAXPHASE * 2 ^ K.NTP_SCALE_SHIFT := by
    rw [Int.tdiv_eq_ediv hA0 (le_of_lt hF0)]
    exact Int.ediv_le_self _ hA0
  have hdiv : div_s64 (shl64 c K.NTP_SCALE_SHIFT) K.NTP_INTERVAL_FREQ =
      Int.tdiv (c * 2 ^ K.NTP_SCALE_SHIFT) K.NTP_INTERVAL_FREQ := by
    unfold div_s64
    rw [hshl, hF]
    apply wrapS_eq_self 64 _ (by norm_num)
    · norm_num
      omega
    · norm_num
      omega
  rw [hdiv]
  exact ⟨rfl, abs_le.mpr ⟨b1, b2⟩⟩

/-- Witness for C20: with the reference constants, on a state with `STA_PLL`
set and `STA_NANO` clear, an offset of 2 s (2000000 us) is clamped to
`MAXPHASE`: `time_offset = (500000000 << 32) / 1000`. -/
theorem C20_phase_offset_witness :
    (ntp_update_offset refConsts { initialState refConsts with time_status := 0x0001 }
      2000000 5000).time_offset = 2147483648000000 ∧
    |(ntp_update_offset refConsts { initialState refConsts with time_status := 0x0001 }
      2000000 5000).time_offset| ≤
      Int.tdiv (refConsts.MAXPHASE * 2 ^ refConsts.NTP_SCALE_SHIFT)
        refConsts.NTP_INTERVAL_FREQ :=
  ⟨by decide,
   (C20_phase_offset refConsts { initialState refConsts with time_status := 0x0001 }
    2000000 5000 (by decide) (by decide) (by decide) (by decide) (by decide) (by decide)
    (by decide) (by decide) (by decide)).2⟩

/-! ## C21: FLL/PLL mode selection -/

/-- C21: for every status (an `int` bit set), `offset64` and `secs`,
`ntp_update_offset_fll` changes no variable but `time_status`, leaves every
status bit other than `STA_MODE` unchanged, leaves `STA_MODE` set if and only
if `secs >= MINSEC` and (`STA_FLL` is set or `secs > MAXSEC`), and returns
`(offset64 << (NTP_SCALE_SHIFT - SHIFT_FLL)) / secs` (in `s64` arithmetic, as
the source computes it) in exactly that case and 0 otherwise; when the shifted
value is an `s64` the quotient is the exact integer quotient rounded toward
zero. `STA_MODE` and `STA_FLL` are distinct bits of an `int`. -/
theorem C21_mode_selection (K : Consts) (s : TimeState) (offset64 secs : Int)
    (hst : s.time_status < 2 ^ 32) (hM : K.STA_MODE < 2 ^ 32) (hM0 : K.STA_MODE ≠ 0)
    (hFM : K.STA_FLL &&& K.STA_MODE = 0) :
    (ntp_update_offset_fll K s offset64 secs).1 =
      { s with time_status := (ntp_update_offset_fll K s offset64 secs).1.time_status } ∧
    (ntp_update_offset_fll K s offset64 secs).1.time_status &&& int_not K.STA_MODE =
      s.time_status &&& int_not K.STA_MODE ∧
    ((ntp_update_offset_fll K s offset64 secs).1.time_status &&& K.STA_MODE ≠ 0 ↔
      (K.MINSEC ≤ secs ∧ (s.time_status &&& K.STA_FLL ≠ 0 ∨ K.MAXSEC < secs))) ∧
    (ntp_update_offset_fll K s offset64 secs).1.time_status &&& K.STA_MODE =
      (if K.MINSEC ≤ secs ∧ (s.time_status &&& K.STA_FLL ≠ 0 ∨ K.MAXSEC < secs)
        then K.STA_MODE else 0) ∧
    (ntp_update_offset_fll K s offset64 secs).2 =
      (if K.MINSEC ≤ secs ∧ (s.time_status &&& K.STA_FLL ≠ 0 ∨ K.MAXSEC < secs)
        then div64_long (shl64 offset64 (K.NTP_SCALE_SHIFT - K.SHIFT_FLL)) secs else 0) ∧
    (0 < secs → -(2 ^ 63) < offset64 * 2 ^ (K.NTP_SCALE_SHIFT - K.SHIFT_FLL) →
      offset64 * 2 ^ (K.NTP_SCALE_SHIFT - K.SHIFT_FLL) < 2 ^ 63 →
      div64_long (shl64 offset64 (K.NTP_SCALE_SHIFT - K.SHIFT_FLL)) secs =
        Int.tdiv (offset64 * 2 ^ (K.NTP_SCALE_SHIFT - K.SHIFT_FLL)) secs) := by
  rw [ntp_update_offset_fll_eq K s offset64 secs hst hFM]
  refine ⟨?_, ?_, ?_, ?_, ?_, ?_⟩
  · split_ifs <;> rfl
  · split_ifs
    · exact lor_land_not _ _ hM
    · show (s.time_status &&& int_not K.STA_MODE) &&& int_not K.STA_MODE = _
      rw [Nat.and_assoc, Nat.and_self]
  · split_ifs with hc
    · refine ⟨fun _ => hc, fun _ => ?_⟩
      show ((s.time_status &&& int_not K.STA_MODE) ||| K.STA_MODE) &&& K.STA_MODE ≠ 0
      rw [lor_land_self]
      exact hM0
    · exact ⟨fun h => absurd (land_not_self _ _ hst) h, fun h => absurd h hc⟩
  · split_ifs
    · exact lor_land_self _ _
    · exact land_not_self _ _ hst
  · split_ifs <;> rfl
  · intro hs h1 h2
    have hshl : shl64 offset64 (K.NTP_SCALE_SHIFT - K.SHIFT_FLL) =
        offset64 * 2 ^ (K.NTP_SCALE_SHIFT - K.SHIFT_FLL) := by
      unfold shl64
      apply wrapS_eq_self 64 _ (by norm_num)
      · norm_num
        omega
      · norm_num
        omega
    unfold div64_long
    rw [hshl]
    generalize offset64 * 2 ^ (K.NTP_SCALE_SHIFT - K.SHIFT_FLL) = X at h1 h2
    obtain ⟨b1, b2⟩ := tdiv_bound X (2 ^ 63 - 1) secs hs (by omega) (by omega)
    have hA : Int.tdiv (2 ^ 63 - 1) secs ≤ 2 ^ 63 - 1 := by
      rw [Int.tdiv_eq_ediv (by norm_num) (le_of_lt hs)]
      exact Int.ediv_le_self _ (by norm_num)
    apply wrapS_eq_self 64 _ (by norm_num)
    · norm_num
      omega
    · norm_num
      omega

/-- Witness for C21: with the reference constants, status `STA_PLL | STA_FLL`
(0x0009), `offset64 = 1000000` and `secs = 300 >= MINSEC`: `STA_MODE` is set
and the FLL contribution is `(1000000 << 30) / 300`. -/
theorem C21_mode_selection_witness :
    (ntp_update_offset_fll refConsts { initialState refConsts with time_status := 0x0009 }
      1000000 300).1.time_status = 0x4009 ∧
    (ntp_update_offset_fll refConsts { initialState refConsts with time_status := 0x0009 }
      1000000 300).2 =
      (if refConsts.MINSEC ≤ (300 : Int) ∧
          (({ initialState refConsts with time_status := 0x0009 } : TimeState).time_status &&&
            refConsts.STA_FLL ≠ 0 ∨ refConsts.MAXSEC < (300 : Int))
        then div64_long (shl64 1000000 (refConsts.NTP_SCALE_SHIFT - refConsts.SHIFT_FLL)) 300
        else 0) :=
  ⟨by decide,
   (C21_mode_selection refConsts { initialState refConsts with time_status := 0x0009 }
    1000000 300 (by decide) (by decide) (by decide) (by decide)).2.2.2.2.1⟩

/-! ## C22: the frequency hold -/

/-- C22: for every state with `STA_PLL` and `STA_FREQHOLD` set,
`|time_freq| <= MAXFREQ_SCALED` and `time_constant` within `[0, MAXTC]`, and
for every offset and every clock reading, `ntp_update_offset` leaves
`time_freq` unchanged and leaves `STA_MODE` clear, while `time_reftime`
becomes the clock reading and `time_offset` the scaled, clamped offset. The
status is an `int` bit set, `MINSEC` is positive, `MAXFREQ_SCALED` is an `s64`
and `1 << (SHIFT_PLL + 1 + MAXTC)` is an `int`. -/
theorem C22_freqhold (K : Consts) (s : TimeState) (offset now : Int)
    (hst : s.time_status < 2 ^ 32)
    (hMIN : 0 < K.MINSEC) (hM63 : K.MAXFREQ_SCALED < 2 ^ 63)
    (hshift : K.SHIFT_PLL + 1 + K.MAXTC < 31)
    (htc0 : 0 ≤ s.time_constant) (htc1 : s.time_constant ≤ K.MAXTC)
    (hPLL : s.time_status &&& K.STA_PLL ≠ 0)
    (hHOLD : s.time_status &&& K.STA_FREQHOLD ≠ 0)
    (hfreq : |s.time_freq| ≤ K.MAXFREQ_SCALED) :
    (ntp_update_offset K s offset now).time_freq = s.time_freq ∧
    (ntp_update_offset K s offset now).time_status &&& K.STA_MODE = 0 ∧
    (ntp_update_offset K s offset now).time_reftime = now ∧
    (ntp_update_offset K s offset now).time_offset =
      div_s64 (shl64 (clamp (if s.time_status &&& K.STA_NANO = 0 then
        wrapLong K (clamp offset (-K.USEC_PER_SEC) K.USEC_PER_SEC * K.NSEC_PER_USEC)
        else offset) (-K.MAXPHASE) K.MAXPHASE) K.NTP_SCALE_SHIFT) K.NTP_INTERVAL_FREQ := by
  obtain ⟨e1, e2, e3⟩ := ntp_update_offset_freqhold K s offset now hMIN
    (pll_limit_nonneg K s.time_constant htc0 htc1 hshift).1 hPLL hHOLD
  obtain ⟨f1, f2⟩ := abs_le.mp hfreq
  refine ⟨?_, ?_, e3, ntp_update_offset_time_offset K s offset now hPLL⟩
  · rw [e1, wrapS_eq_self 64 _ (by norm_num) (by norm_num; omega) (by norm_num; omega),
      min_eq_left f2, max_eq_left f1]
  · rw [e2]
    exact land_not_self _ _ hst

/-- Witness for C22: with the reference constants, status
`STA_PLL | STA_FREQHOLD | STA_MODE` (0x4081), `time_freq = 12345`, an offset
of 1000 us read 5000 s after the last sample. -/
theorem C22_freqhold_witness :
    (ntp_update_offset refConsts
      { initialState refConsts with time_status := 0x4081, time_freq := 12345 }
      1000 5000).time_freq = 12345 ∧
    (ntp_update_offset refConsts
      { initialState refConsts with time_status := 0x4081, time_freq := 12345 }
      1000 5000).time_status &&& refConsts.STA_MODE = 0 :=
  ⟨(C22_freqhold refConsts
      { initialState refConsts with time_status := 0x4081, time_freq := 12345 } 1000 5000
      (by decide) (by decide) (by decide) (by decide) (by decide) (by decide) (by decide)
      (by decide) (by decide)).1,
   (C22_freqhold refConsts
      { initialState refConsts with time_status := 0x4081, time_freq := 12345 } 1000 5000
      (by decide) (by decide) (by decide) (by decide) (by decide) (by decide) (by decide)
      (by decide) (by decide)).2.1⟩

/-! ## C23: the phase decay -/

/-- C23, as stated, fails on the `u64` addition: with the reference constants,
in the state of the static initialisers (`tick_length_base = 0`,
`time_constant = 2`, `time_adjust = 0`) with `time_offset = -1024`, the chunk
is `delta = -64` and `time_offset` becomes `-960`, but `tick_length` is the
`u64` value `2^64 - 64 = 18446744073709551552`, not `tick_length_base + delta =
-64`; so `(tick_length - tick_length_base) + time_offset_new` is not
`time_offset_old`. -/
theorem C23_counterexample :
    (0 : Int) ≤ ({ initialState refConsts with time_offset := -1024 } : TimeState).time_constant ∧
    ({ initialState refConsts with time_offset := -1024 } : TimeState).time_constant ≤
      refConsts.MAXTC ∧
    ({ initialState refConsts with time_offset := -1024 } : TimeState).time_adjust = 0 ∧
    Int.tdiv (-1024) (2 ^ (refConsts.SHIFT_PLL + 2)) = -64 ∧
    (second_overflow refConsts { initialState refConsts with time_offset := -1024 }
      1000).1.time_offset = -960 ∧
    (second_overflow refConsts { initialState refConsts with time_offset := -1024 }
      1000).1.tick_length_base = 0 ∧
    (second_overflow refConsts { initialState refConsts with time_offset := -1024 }
      1000).1.tick_length = 18446744073709551552 ∧
    (second_overflow refConsts { initialState refConsts with time_offset := -1024 }
      1000).1.tick_length ≠ 0 + -64 ∧
    ((second_overflow refConsts { initialState refConsts with time_offset := -1024 }
        1000).1.tick_length -
      (second_overflow refConsts { initialState refConsts with time_offset := -1024 }
        1000).1.tick_length_base) +
      (second_overflow refConsts { initialState refConsts with time_offset := -1024 }
        1000).1.time_offset ≠ -1024 := by
  decide

/-- C23, amended: for every state with `0 <= time_constant <= MAXTC` and
`time_adjust = 0` (and `time_offset` an `s64` other than `LLONG_MIN`), after
`second_overflow`, with `delta` the old `time_offset` shifted right by
`SHIFT_PLL + time_constant` with rounding toward zero:
`tick_length = (tick_length_base + delta) mod 2^64` (an unsigned 64-bit
addition), `time_offset_new = time_offset_old - delta`, and
`tick_length_base` is unchanged; whenever `tick_length_base + delta` lies in
`[0, 2^64)`, `tick_length = tick_length_base + delta` and
`(tick_length - tick_length_base) + time_offset_new = time_offset_old`;
`time_offset_new` never has the opposite sign of `time_offset_old`, and
`|time_offset_new| <= |time_offset_old|`. -/
theorem C23_phase_decay (K : Consts) (s : TimeState) (secs : Int)
    (hw : 0 < K.BITS_PER_LONG) (hn : K.SHIFT_PLL + K.MAXTC ≤ LONG_MAX K)
    (htc0 : 0 ≤ s.time_constant) (htc1 : s.time_constant ≤ K.MAXTC)
    (hadj : s.time_adjust = 0)
    (ho1 : -(2 ^ 63) < s.time_offset) (ho2 : s.time_offset < 2 ^ 63) :
    (second_overflow K s secs).1.tick_length =
      (s.tick_length_base +
        Int.tdiv s.time_offset (2 ^ (K.SHIFT_PLL + s.time_constant).toNat)) % 2 ^ 64 ∧
    (second_overflow K s secs).1.time_offset =
      s.time_offset - Int.tdiv s.time_offset (2 ^ (K.SHIFT_PLL + s.time_constant).toNat) ∧
    (second_overflow K s secs).1.tick_length_base = s.tick_length_base ∧
    (0 ≤ s.tick_length_base +
        Int.tdiv s.time_offset (2 ^ (K.SHIFT_PLL + s.time_constant).toNat) →
      s.tick_length_base +
        Int.tdiv s.time_offset (2 ^ (K.SHIFT_PLL + s.time_constant).toNat) < 2 ^ 64 →
      (second_overflow K s secs).1.tick_length =
        s.tick_length_base +
          Int.tdiv s.time_offset (2 ^ (K.SHIFT_PLL + s.time_constant).toNat) ∧
      ((second_overflow K s secs).1.tick_length -
          (second_overflow K s secs).1.tick_length_base) +
        (second_overflow K s secs).1.time_offset = s.time_offset) ∧
    (0 ≤ s.time_offset → 0 ≤ (second_overflow K s secs).1.time_offset) ∧
    (s.time_offset ≤ 0 → (second_overflow K s secs).1.time_offset ≤ 0) ∧
    |(second_overflow K s secs).1.time_offset| ≤ |s.time_offset| := by
  obtain ⟨e1, e2, e3⟩ := second_overflow_decay K s secs hadj
  have hk : wrapLong K (K.SHIFT_PLL + s.time_constant) = K.SHIFT_PLL + s.time_constant :=
    wrapLong_eq_of_bits K _ hw (by omega) (by omega)
  rw [hk, shift_right_eq_tdiv _ _ ho1 ho2] at e1 e2
  have hP : (0 : Int) < 2 ^ (K.SHIFT_PLL + s.time_constant).toNat := by positivity
  obtain ⟨t1, t2⟩ := tdiv_toward_zero s.time_offset _ hP
  generalize Int.tdiv s.time_offset (2 ^ (K.SHIFT_PLL + s.time_constant).toNat) = d
    at e1 e2 t1 t2 ⊢
  have hnew : (second_overflow K s secs).1.time_offset = s.time_offset - d := by
    rw [e1]
    apply wrapS_eq_self 64 _ (by norm_num)
    · norm_num
      rcases le_total 0 s.time_offset with h | h
      · have := t1 h
        omega
      · have := t2 h
        omega
    · norm_num
      rcases le_total 0 s.time_offset with h | h
      · have := t1 h
        omega
      · have := t2 h
        omega
  refine ⟨e2, hnew, e3, ?_, ?_, ?_, ?_⟩
  · intro h0 h1
    have htl : (second_overflow K s secs).1.tick_length = s.tick_length_base + d := by
      rw [e2]
      unfold wrapU
      exact Int.emod_eq_of_lt h0 (by norm_num; omega)
    refine ⟨htl, ?_⟩
    rw [htl, hnew, e3]
    ring
  · intro h
    rw [hnew]
    have := t1 h
    omega
  · intro h
    rw [hnew]
    have := t2 h
    omega
  · rw [hnew]
    rcases le_total 0 s.time_offset with h | h
    · have := t1 h
      rw [abs_of_nonneg (by omega : (0 : Int) ≤ s.time_offset - d), abs_of_nonneg h]
      omega
    · have := t2 h
      rw [abs_of_nonpos (by omega : s.time_offset - d ≤ 0), abs_of_nonpos h]
      omega

/-- Witness for C23: with the reference constants, after `ntp_clear` (so that
`tick_length_base` is the nominal tick) and with `time_offset = -1024`, one
tick gives `time_offset = -960`. -/
theorem C23_phase_decay_witness :
    (second_overflow refConsts
      { ntp_clear refConsts (initialState refConsts) with time_offset := -1024 }
      1000).1.time_offset =
      -1024 - Int.tdiv (-1024) (2 ^ (refConsts.SHIFT_PLL + (2 : Int)).toNat) :=
  (C23_phase_decay refConsts
    { ntp_clear refConsts (initialState refConsts) with time_offset := -1024 } 1000
    (by decide) (by decide) (by decide) (by decide) (by decide) (by decide) (by decide)).2.1

/-! ## C24: the leap-schedule invariant -/

set_option maxRecDepth 100000 in
/-- C24, as stated, fails in state OOP: with the reference constants, from
the initial state the calls `process_adj_status` (status `STA_INS`),
`second_overflow(86399)`, `second_overflow(86400)` lead to state OOP with
`ntp_next_leap_sec = 86400`, which is not the never sentinel `TIME_MAX`. -/
theorem C24_counterexample :
    (applyLeapCalls refConsts (initialState refConsts)
      [LeapCall.adj_status { txcZero with status := 0x0010 } 0,
       LeapCall.tick 86399, LeapCall.tick 86400]).time_state = SyncState.TIME_OOP ∧
    (applyLeapCalls refConsts (initialState refConsts)
      [LeapCall.adj_status { txcZero with status := 0x0010 } 0,
       LeapCall.tick 86399, LeapCall.tick 86400]).ntp_next_leap_sec = 86400 ∧
    (applyLeapCalls refConsts (initialState refConsts)
      [LeapCall.adj_status { txcZero with status := 0x0010 } 0,
       LeapCall.tick 86399, LeapCall.tick 86400]).ntp_next_leap_sec ≠ refConsts.TIME_MAX := by
  decide

/-- C24, amended: in every state reachable from the initial state by any
sequence of `second_overflow`, `process_adj_status` and `ntp_clear` calls,
`ntp_next_leap_sec` is set (different from the never sentinel `TIME_MAX`) only
while the machine is in INS, DEL or OOP (in OOP it still holds the second of
the insertion until the next tick); in states OK and WAIT it is never. -/
theorem C24_leap_schedule (K : Consts) (cs : List LeapCall) :
    ((applyLeapCalls K (initialState K) cs).time_state = SyncState.TIME_OK ∨
      (applyLeapCalls K (initialState K) cs).time_state = SyncState.TIME_WAIT →
      (applyLeapCalls K (initialState K) cs).ntp_next_leap_sec = K.TIME_MAX) ∧
    ((applyLeapCalls K (initialState K) cs).ntp_next_leap_sec ≠ K.TIME_MAX →
      (applyLeapCalls K (initialState K) cs).time_state = SyncState.TIME_INS ∨
      (applyLeapCalls K (initialState K) cs).time_state = SyncState.TIME_DEL ∨
      (applyLeapCalls K (initialState K) cs).time_state = SyncState.TIME_OOP) := by
  have h := applyLeapCalls_schedule K cs (initialState K) (fun _ => rfl)
  refine ⟨h, ?_⟩
  intro hne
  cases hs : (applyLeapCalls K (initialState K) cs).time_state
  · exact absurd (h (Or.inl hs)) hne
  · exact Or.inl rfl
  · exact Or.inr (Or.inl rfl)
  · exact Or.inr (Or.inr rfl)
  · exact absurd (h (Or.inr hs)) hne

/-! ## C25: the base delta is applied at once -/

/-- C25: on a 64-bit build, for every state, after `ntp_update_frequency`:
`tick_length_base = second_length / NTP_INTERVAL_FREQ` with
`second_length = ((tick_usec * NSEC_PER_USEC * USER_HZ) << NTP_SCALE_SHIFT) +
ntp_tick_adj + time_freq` in unsigned 64-bit arithmetic,
`tick_nsec = (second_length / HZ) >> NTP_SCALE_SHIFT`, and
`tick_length_new - tick_length_base_new = tick_length_old -
tick_length_base_old` modulo `2^64`: the offset of `tick_length` from its base
is preserved. `HZ` and `NTP_INTERVAL_FREQ` are `u32` values. -/
theorem C25_update_frequency (K : Consts) (s : TimeState)
    (h64 : K.BITS_PER_LONG = 64)
    (hHZ0 : 0 ≤ K.HZ) (hHZ1 : K.HZ < 2 ^ 32)
    (hF0 : 0 ≤ K.NTP_INTERVAL_FREQ) (hF1 : K.NTP_INTERVAL_FREQ < 2 ^ 32) :
    (ntp_update_frequency K s).tick_length_base = second_length K s / K.NTP_INTERVAL_FREQ ∧
    (ntp_update_frequency K s).tick_nsec = (second_length K s / K.HZ) >>> K.NTP_SCALE_SHIFT ∧
    ((ntp_update_frequency K s).tick_length - (ntp_update_frequency K s).tick_length_base)
        % 2 ^ 64 =
      (s.tick_length - s.tick_length_base) % 2 ^ 64 := by
  obtain ⟨e1, e2, e3⟩ := ntp_update_frequency_fields K s
  rw [second_length_eq K s h64] at e1 e2
  have hsl0 : 0 ≤ second_length K s := by
    unfold second_length
    exact Int.emod_nonneg _ (by norm_num)
  have hsl1 : second_length K s < 2 ^ 64 := by
    unfold second_length
    exact Int.emod_lt_of_pos _ (by norm_num)
  have hF : wrapU 32 K.NTP_INTERVAL_FREQ = K.NTP_INTERVAL_FREQ := by
    unfold wrapU
    exact Int.emod_eq_of_lt hF0 (by norm_num; omega)
  have hH : wrapU 32 K.HZ = K.HZ := by
    unfold wrapU
    exact Int.emod_eq_of_lt hHZ0 (by norm_num; omega)
  unfold div_u64 at e1 e2
  rw [hF] at e1
  rw [hH] at e2
  refine ⟨e1, ?_, ?_⟩
  · rw [e2]
    have hq0 : 0 ≤ second_length K s / K.HZ := Int.ediv_nonneg hsl0 hHZ0
    have hq1 : second_length K s / K.HZ ≤ second_length K s := Int.ediv_le_self _ hsl0
    have hr : (second_length K s / K.HZ) >>> K.NTP_SCALE_SHIFT =
        second_length K s / K.HZ / 2 ^ K.NTP_SCALE_SHIFT := by
      rw [Int.shiftRight_eq_div_pow]
      push_cast
      rfl
    have hr0 : 0 ≤ second_length K s / K.HZ / 2 ^ K.NTP_SCALE_SHIFT :=
      Int.ediv_nonneg hq0 (by positivity)
    have hr1 : second_length K s / K.HZ / 2 ^ K.NTP_SCALE_SHIFT ≤
        second_length K s / K.HZ := Int.ediv_le_self _ hq0
    unfold wrapULong wrapU
    rw [h64, hr]
    exact Int.emod_eq_of_lt hr0 (lt_of_le_of_lt (le_trans hr1 hq1) hsl1)
  · rw [e3]
    unfold wrapU
    rw [Int.sub_emod, Int.emod_emod, ← Int.sub_emod]
    congr 1
    ring

/-- Witness for C25: with the reference constants and the initial state the
nominal second is `10000 * 1000 * 100 << 32` and the base `2^32 * 10^6`. -/
theorem C25_update_frequency_witness :
    (ntp_update_frequency refConsts (initialState refConsts)).tick_length_base =
      4294967296000000 ∧
    (ntp_update_frequency refConsts (initialState refConsts)).tick_length_base =
      second_length refConsts (initialState refConsts) / refConsts.NTP_INTERVAL_FREQ ∧
    (ntp_update_frequency refConsts (initialState refConsts)).tick_nsec = 1000000 :=
  ⟨by decide,
   (C25_update_frequency refConsts (initialState refConsts) (by decide) (by decide)
    (by decide) (by decide) (by decide)).1,
   by decide⟩

end LegoNTP
